import Mathlib

/-!
# 42tiny-js: `TinyJS.h`

A shallow embedding of the inline code of `src/trunk/TinyJS.h` (enumerations, preprocessor
constants, the inline member functions of the token, link, value and context classes) and the
properties proved about it.

Conventions of the embedding.
* A C pointer is an `Option`: `none` is the null pointer, `some a` points at the object with
  address `a`.
* `uint32_t` and `uint16_t` fields are natural numbers; arithmetic on them is reduced modulo
  `2 ^ 32` where the code can overflow.
* A member function that writes through `this` or through a reference parameter returns the new
  value of what it writes.
* A member function declared in the header whose body lives in `TinyJS.cpp` is a parameter of the
  embedding, or is modelled under a doc comment that says so.
-/

namespace TinyJS

/-! ## Definitions -/

/-! ### `enum LEX_TYPES` -/

/-- Enumerator `LEX_EOF = 0`. -/
def LEX_EOF : Nat := 0
/-- Enumerator `LEX_EQUAL = 256`. -/
def LEX_EQUAL : Nat := 256
/-- Enumerator `LEX_TYPEEQUAL`, the one after `LEX_EQUAL`. -/
def LEX_TYPEEQUAL : Nat := LEX_EQUAL + 1
/-- Enumerator `LEX_NEQUAL`, the one after `LEX_TYPEEQUAL`. -/
def LEX_NEQUAL : Nat := LEX_TYPEEQUAL + 1
/-- Enumerator `LEX_NTYPEEQUAL`, the one after `LEX_NEQUAL`. -/
def LEX_NTYPEEQUAL : Nat := LEX_NEQUAL + 1
/-- Enumerator `LEX_LEQUAL`, the one after `LEX_NTYPEEQUAL`. -/
def LEX_LEQUAL : Nat := LEX_NTYPEEQUAL + 1
/-- Enumerator `LEX_GEQUAL`, the one after `LEX_LEQUAL`. -/
def LEX_GEQUAL : Nat := LEX_LEQUAL + 1
/-- Enumerator `LEX_LSHIFT`, the one after `LEX_GEQUAL`. -/
def LEX_LSHIFT : Nat := LEX_GEQUAL + 1
/-- Enumerator `LEX_RSHIFT`, the one after `LEX_LSHIFT`. -/
def LEX_RSHIFT : Nat := LEX_LSHIFT + 1
/-- Enumerator `LEX_RSHIFTU`, the one after `LEX_RSHIFT`. -/
def LEX_RSHIFTU : Nat := LEX_RSHIFT + 1
/-- Enumerator `LEX_PLUSPLUS`, the one after `LEX_RSHIFTU`. -/
def LEX_PLUSPLUS : Nat := LEX_RSHIFTU + 1
/-- Enumerator `LEX_MINUSMINUS`, the one after `LEX_PLUSPLUS`. -/
def LEX_MINUSMINUS : Nat := LEX_PLUSPLUS + 1
/-- Enumerator `LEX_ANDAND`, the one after `LEX_MINUSMINUS`. -/
def LEX_ANDAND : Nat := LEX_MINUSMINUS + 1
/-- Enumerator `LEX_OROR`, the one after `LEX_ANDAND`. -/
def LEX_OROR : Nat := LEX_ANDAND + 1
/-- Enumerator `LEX_INT`, the one after `LEX_OROR`. -/
def LEX_INT : Nat := LEX_OROR + 1
/-- Enumerator `LEX_PLUSEQUAL`, the one after `LEX_INT`. -/
def LEX_PLUSEQUAL : Nat := LEX_INT + 1
/-- Enumerator `LEX_MINUSEQUAL`, the one after `LEX_PLUSEQUAL`. -/
def LEX_MINUSEQUAL : Nat := LEX_PLUSEQUAL + 1
/-- Enumerator `LEX_ASTERISKEQUAL`, the one after `LEX_MINUSEQUAL`. -/
def LEX_ASTERISKEQUAL : Nat := LEX_MINUSEQUAL + 1
/-- Enumerator `LEX_SLASHEQUAL`, the one after `LEX_ASTERISKEQUAL`. -/
def LEX_SLASHEQUAL : Nat := LEX_ASTERISKEQUAL + 1
/-- Enumerator `LEX_PERCENTEQUAL`, the one after `LEX_SLASHEQUAL`. -/
def LEX_PERCENTEQUAL : Nat := LEX_SLASHEQUAL + 1
/-- Enumerator `LEX_LSHIFTEQUAL`, the one after `LEX_PERCENTEQUAL`. -/
def LEX_LSHIFTEQUAL : Nat := LEX_PERCENTEQUAL + 1
/-- Enumerator `LEX_RSHIFTEQUAL`, the one after `LEX_LSHIFTEQUAL`. -/
def LEX_RSHIFTEQUAL : Nat := LEX_LSHIFTEQUAL + 1
/-- Enumerator `LEX_RSHIFTUEQUAL`, the one after `LEX_RSHIFTEQUAL`. -/
def LEX_RSHIFTUEQUAL : Nat := LEX_RSHIFTEQUAL + 1
/-- Enumerator `LEX_ANDEQUAL`, the one after `LEX_RSHIFTUEQUAL`. -/
def LEX_ANDEQUAL : Nat := LEX_RSHIFTUEQUAL + 1
/-- Enumerator `LEX_OREQUAL`, the one after `LEX_ANDEQUAL`. -/
def LEX_OREQUAL : Nat := LEX_ANDEQUAL + 1
/-- Enumerator `LEX_XOREQUAL`, the one after `LEX_OREQUAL`. -/
def LEX_XOREQUAL : Nat := LEX_OREQUAL + 1
/-- Enumerator `LEX_ID`, the one after `LEX_XOREQUAL`. -/
def LEX_ID : Nat := LEX_XOREQUAL + 1
/-- Enumerator `LEX_STR`, the one after `LEX_ID`. -/
def LEX_STR : Nat := LEX_ID + 1
/-- Enumerator `LEX_REGEXP`, the one after `LEX_STR`. -/
def LEX_REGEXP : Nat := LEX_STR + 1
/-- Enumerator `LEX_T_LABEL`, the one after `LEX_REGEXP`. -/
def LEX_T_LABEL : Nat := LEX_REGEXP + 1
/-- Enumerator `LEX_T_DUMMY_LABEL`, the one after `LEX_T_LABEL`. -/
def LEX_T_DUMMY_LABEL : Nat := LEX_T_LABEL + 1
/-- Enumerator `LEX_T_LOOP_LABEL`, the one after `LEX_T_DUMMY_LABEL`. -/
def LEX_T_LOOP_LABEL : Nat := LEX_T_DUMMY_LABEL + 1
/-- Enumerator `LEX_FLOAT`, the one after `LEX_T_LOOP_LABEL`. -/
def LEX_FLOAT : Nat := LEX_T_LOOP_LABEL + 1
/-- Enumerator `LEX_R_IF`, the one after `LEX_FLOAT`. -/
def LEX_R_IF : Nat := LEX_FLOAT + 1
/-- Enumerator `LEX_R_ELSE`, the one after `LEX_R_IF`. -/
def LEX_R_ELSE : Nat := LEX_R_IF + 1
/-- Enumerator `LEX_R_DO`, the one after `LEX_R_ELSE`. -/
def LEX_R_DO : Nat := LEX_R_ELSE + 1
/-- Enumerator `LEX_R_WHILE`, the one after `LEX_R_DO`. -/
def LEX_R_WHILE : Nat := LEX_R_DO + 1
/-- Enumerator `LEX_R_FOR`, the one after `LEX_R_WHILE`. -/
def LEX_R_FOR : Nat := LEX_R_WHILE + 1
/-- Enumerator `LEX_T_FOR_IN`, the one after `LEX_R_FOR`. -/
def LEX_T_FOR_IN : Nat := LEX_R_FOR + 1
/-- Enumerator `LEX_T_FOR_EACH_IN`, the one after `LEX_T_FOR_IN`. -/
def LEX_T_FOR_EACH_IN : Nat := LEX_T_FOR_IN + 1
/-- Enumerator `LEX_R_IN`, the one after `LEX_T_FOR_EACH_IN`. -/
def LEX_R_IN : Nat := LEX_T_FOR_EACH_IN + 1
/-- Enumerator `LEX_R_BREAK`, the one after `LEX_R_IN`. -/
def LEX_R_BREAK : Nat := LEX_R_IN + 1
/-- Enumerator `LEX_R_CONTINUE`, the one after `LEX_R_BREAK`. -/
def LEX_R_CONTINUE : Nat := LEX_R_BREAK + 1
/-- Enumerator `LEX_R_RETURN`, the one after `LEX_R_CONTINUE`. -/
def LEX_R_RETURN : Nat := LEX_R_CONTINUE + 1
/-- Enumerator `LEX_R_VAR`, the one after `LEX_R_RETURN`. -/
def LEX_R_VAR : Nat := LEX_R_RETURN + 1
/-- Enumerator `LEX_R_LET`, the one after `LEX_R_VAR`. -/
def LEX_R_LET : Nat := LEX_R_VAR + 1
/-- Enumerator `LEX_R_WITH`, the one after `LEX_R_LET`. -/
def LEX_R_WITH : Nat := LEX_R_LET + 1
/-- Enumerator `LEX_R_TRUE`, the one after `LEX_R_WITH`. -/
def LEX_R_TRUE : Nat := LEX_R_WITH + 1
/-- Enumerator `LEX_R_FALSE`, the one after `LEX_R_TRUE`. -/
def LEX_R_FALSE : Nat := LEX_R_TRUE + 1
/-- Enumerator `LEX_R_NULL`, the one after `LEX_R_FALSE`. -/
def LEX_R_NULL : Nat := LEX_R_FALSE + 1
/-- Enumerator `LEX_R_NEW`, the one after `LEX_R_NULL`. -/
def LEX_R_NEW : Nat := LEX_R_NULL + 1
/-- Enumerator `LEX_R_TRY`, the one after `LEX_R_NEW`. -/
def LEX_R_TRY : Nat := LEX_R_NEW + 1
/-- Enumerator `LEX_R_CATCH`, the one after `LEX_R_TRY`. -/
def LEX_R_CATCH : Nat := LEX_R_TRY + 1
/-- Enumerator `LEX_R_FINALLY`, the one after `LEX_R_CATCH`. -/
def LEX_R_FINALLY : Nat := LEX_R_CATCH + 1
/-- Enumerator `LEX_R_THROW`, the one after `LEX_R_FINALLY`. -/
def LEX_R_THROW : Nat := LEX_R_FINALLY + 1
/-- Enumerator `LEX_R_TYPEOF`, the one after `LEX_R_THROW`. -/
def LEX_R_TYPEOF : Nat := LEX_R_THROW + 1
/-- Enumerator `LEX_R_VOID`, the one after `LEX_R_TYPEOF`. -/
def LEX_R_VOID : Nat := LEX_R_TYPEOF + 1
/-- Enumerator `LEX_R_DELETE`, the one after `LEX_R_VOID`. -/
def LEX_R_DELETE : Nat := LEX_R_VOID + 1
/-- Enumerator `LEX_R_INSTANCEOF`, the one after `LEX_R_DELETE`. -/
def LEX_R_INSTANCEOF : Nat := LEX_R_DELETE + 1
/-- Enumerator `LEX_R_SWITCH`, the one after `LEX_R_INSTANCEOF`. -/
def LEX_R_SWITCH : Nat := LEX_R_INSTANCEOF + 1
/-- Enumerator `LEX_R_CASE`, the one after `LEX_R_SWITCH`. -/
def LEX_R_CASE : Nat := LEX_R_SWITCH + 1
/-- Enumerator `LEX_R_DEFAULT`, the one after `LEX_R_CASE`. -/
def LEX_R_DEFAULT : Nat := LEX_R_CASE + 1
/-- Enumerator `LEX_R_FUNCTION_PLACEHOLDER`, the one after `LEX_R_DEFAULT`. -/
def LEX_R_FUNCTION_PLACEHOLDER : Nat := LEX_R_DEFAULT + 1
/-- Enumerator `LEX_R_FUNCTION`, the one after `LEX_R_FUNCTION_PLACEHOLDER`. -/
def LEX_R_FUNCTION : Nat := LEX_R_FUNCTION_PLACEHOLDER + 1
/-- Enumerator `LEX_T_FUNCTION_OPERATOR`, the one after `LEX_R_FUNCTION`. -/
def LEX_T_FUNCTION_OPERATOR : Nat := LEX_R_FUNCTION + 1
/-- Enumerator `LEX_T_FUNCTION_SHORT`, the one after `LEX_T_FUNCTION_OPERATOR`. -/
def LEX_T_FUNCTION_SHORT : Nat := LEX_T_FUNCTION_OPERATOR + 1
/-- Enumerator `LEX_T_FUNCTION_OPERATOR_SHORT`, the one after `LEX_T_FUNCTION_SHORT`. -/
def LEX_T_FUNCTION_OPERATOR_SHORT : Nat := LEX_T_FUNCTION_SHORT + 1
/-- Enumerator `LEX_T_GET`, the one after `LEX_T_FUNCTION_OPERATOR_SHORT`. -/
def LEX_T_GET : Nat := LEX_T_FUNCTION_OPERATOR_SHORT + 1
/-- Enumerator `LEX_T_SET`, the one after `LEX_T_GET`. -/
def LEX_T_SET : Nat := LEX_T_GET + 1
/-- Enumerator `LEX_T_SKIP`, the one after `LEX_T_SET`. -/
def LEX_T_SKIP : Nat := LEX_T_SET + 1
/-- Enumerator `LEX_T_FORWARD`, the one after `LEX_T_SKIP`. -/
def LEX_T_FORWARD : Nat := LEX_T_SKIP + 1
/-- Enumerator `LEX_T_DESTRUCTURING_VAR`, the one after `LEX_T_FORWARD`. -/
def LEX_T_DESTRUCTURING_VAR : Nat := LEX_T_FORWARD + 1
/-- Enumerator `LEX_T_OBJECT_LITERAL`, the one after `LEX_T_DESTRUCTURING_VAR`. -/
def LEX_T_OBJECT_LITERAL : Nat := LEX_T_DESTRUCTURING_VAR + 1

/-- All enumerators of `LEX_TYPES`, in declaration order. -/
def LEX_TYPES_all : List Nat :=
  [LEX_EOF, LEX_EQUAL, LEX_TYPEEQUAL, LEX_NEQUAL, LEX_NTYPEEQUAL, LEX_LEQUAL, LEX_GEQUAL,
   LEX_LSHIFT, LEX_RSHIFT, LEX_RSHIFTU, LEX_PLUSPLUS, LEX_MINUSMINUS, LEX_ANDAND, LEX_OROR,
   LEX_INT, LEX_PLUSEQUAL, LEX_MINUSEQUAL, LEX_ASTERISKEQUAL, LEX_SLASHEQUAL, LEX_PERCENTEQUAL,
   LEX_LSHIFTEQUAL, LEX_RSHIFTEQUAL, LEX_RSHIFTUEQUAL, LEX_ANDEQUAL, LEX_OREQUAL, LEX_XOREQUAL,
   LEX_ID, LEX_STR, LEX_REGEXP, LEX_T_LABEL, LEX_T_DUMMY_LABEL, LEX_T_LOOP_LABEL, LEX_FLOAT,
   LEX_R_IF, LEX_R_ELSE, LEX_R_DO, LEX_R_WHILE, LEX_R_FOR, LEX_T_FOR_IN, LEX_T_FOR_EACH_IN,
   LEX_R_IN, LEX_R_BREAK, LEX_R_CONTINUE, LEX_R_RETURN, LEX_R_VAR, LEX_R_LET, LEX_R_WITH,
   LEX_R_TRUE, LEX_R_FALSE, LEX_R_NULL, LEX_R_NEW, LEX_R_TRY, LEX_R_CATCH, LEX_R_FINALLY,
   LEX_R_THROW, LEX_R_TYPEOF, LEX_R_VOID, LEX_R_DELETE, LEX_R_INSTANCEOF, LEX_R_SWITCH,
   LEX_R_CASE, LEX_R_DEFAULT, LEX_R_FUNCTION_PLACEHOLDER, LEX_R_FUNCTION,
   LEX_T_FUNCTION_OPERATOR, LEX_T_FUNCTION_SHORT, LEX_T_FUNCTION_OPERATOR_SHORT, LEX_T_GET,
   LEX_T_SET, LEX_T_SKIP, LEX_T_FORWARD, LEX_T_DESTRUCTURING_VAR, LEX_T_OBJECT_LITERAL]

/-- `#define LEX_RELATIONS_1_BEGIN LEX_EQUAL` -/
def LEX_RELATIONS_1_BEGIN : Nat := LEX_EQUAL
/-- `#define LEX_RELATIONS_1_END LEX_NTYPEEQUAL` -/
def LEX_RELATIONS_1_END : Nat := LEX_NTYPEEQUAL
/-- `#define LEX_SHIFTS_BEGIN LEX_LSHIFT` -/
def LEX_SHIFTS_BEGIN : Nat := LEX_LSHIFT
/-- `#define LEX_SHIFTS_END LEX_RSHIFTU` -/
def LEX_SHIFTS_END : Nat := LEX_RSHIFTU
/-- `#define LEX_ASSIGNMENTS_BEGIN LEX_PLUSEQUAL` -/
def LEX_ASSIGNMENTS_BEGIN : Nat := LEX_PLUSEQUAL
/-- `#define LEX_ASSIGNMENTS_END LEX_XOREQUAL` -/
def LEX_ASSIGNMENTS_END : Nat := LEX_XOREQUAL
/-- `#define LEX_TOKEN_STRING_BEGIN LEX_ID` -/
def LEX_TOKEN_STRING_BEGIN : Nat := LEX_ID
/-- `#define LEX_TOKEN_STRING_END LEX_T_LOOP_LABEL` -/
def LEX_TOKEN_STRING_END : Nat := LEX_T_LOOP_LABEL
/-- `#define LEX_TOKEN_LOOP_BEGIN LEX_R_DO` -/
def LEX_TOKEN_LOOP_BEGIN : Nat := LEX_R_DO
/-- `#define LEX_TOKEN_LOOP_END LEX_T_FOR_EACH_IN` -/
def LEX_TOKEN_LOOP_END : Nat := LEX_T_FOR_EACH_IN
/-- `#define LEX_TOKEN_FUNCTION_BEGIN LEX_R_FUNCTION_PLACEHOLDER` -/
def LEX_TOKEN_FUNCTION_BEGIN : Nat := LEX_R_FUNCTION_PLACEHOLDER
/-- `#define LEX_TOKEN_FUNCTION_END LEX_T_SET` -/
def LEX_TOKEN_FUNCTION_END : Nat := LEX_T_SET

/-! ### The `LEX_TOKEN_DATA_*` tests -/

/-- `#define LEX_TOKEN_DATA_STRING(tk)
((LEX_TOKEN_STRING_BEGIN<= tk && tk <= LEX_TOKEN_STRING_END))` -/
def LEX_TOKEN_DATA_STRING (tk : Nat) : Bool :=
  decide (LEX_TOKEN_STRING_BEGIN ≤ tk) && decide (tk ≤ LEX_TOKEN_STRING_END)

/-- `#define LEX_TOKEN_DATA_FLOAT(tk) (tk==LEX_FLOAT)` -/
def LEX_TOKEN_DATA_FLOAT (tk : Nat) : Bool := tk == LEX_FLOAT

/-- `#define LEX_TOKEN_DATA_FUNCTION(tk)
(LEX_TOKEN_FUNCTION_BEGIN <= tk && tk <= LEX_TOKEN_FUNCTION_END)` -/
def LEX_TOKEN_DATA_FUNCTION (tk : Nat) : Bool :=
  decide (LEX_TOKEN_FUNCTION_BEGIN ≤ tk) && decide (tk ≤ LEX_TOKEN_FUNCTION_END)

/-- `#define LEX_TOKEN_DATA_OBJECT_LITERAL(tk) (tk==LEX_T_OBJECT_LITERAL)` -/
def LEX_TOKEN_DATA_OBJECT_LITERAL (tk : Nat) : Bool := tk == LEX_T_OBJECT_LITERAL

/-- `#define LEX_TOKEN_DATA_DESTRUCTURING_VAR(tk) (tk==LEX_T_DESTRUCTURING_VAR)` -/
def LEX_TOKEN_DATA_DESTRUCTURING_VAR (tk : Nat) : Bool := tk == LEX_T_DESTRUCTURING_VAR

/-- `#define LEX_TOKEN_DATA_FORWARDER(tk) (tk==LEX_T_FORWARD)` -/
def LEX_TOKEN_DATA_FORWARDER (tk : Nat) : Bool := tk == LEX_T_FORWARD

/-- `#define LEX_TOKEN_DATA_SIMPLE(tk) (!LEX_TOKEN_DATA_STRING(tk) && !LEX_TOKEN_DATA_FLOAT(tk)
&& !LEX_TOKEN_DATA_FUNCTION(tk) && !LEX_TOKEN_DATA_OBJECT_LITERAL(tk)
&& !LEX_TOKEN_DATA_DESTRUCTURING_VAR(tk) && !LEX_TOKEN_DATA_FORWARDER(tk))` -/
def LEX_TOKEN_DATA_SIMPLE (tk : Nat) : Bool :=
  !LEX_TOKEN_DATA_STRING tk && !LEX_TOKEN_DATA_FLOAT tk && !LEX_TOKEN_DATA_FUNCTION tk &&
    !LEX_TOKEN_DATA_OBJECT_LITERAL tk && !LEX_TOKEN_DATA_DESTRUCTURING_VAR tk &&
    !LEX_TOKEN_DATA_FORWARDER tk

/-- The seven payload tests applied to one token kind, in the order `SIMPLE`, `STRING`, `FLOAT`,
`FUNCTION`, `OBJECT_LITERAL`, `DESTRUCTURING_VAR`, `FORWARDER`. -/
def LEX_TOKEN_DATA_tests (tk : Nat) : List Bool :=
  [LEX_TOKEN_DATA_SIMPLE tk, LEX_TOKEN_DATA_STRING tk, LEX_TOKEN_DATA_FLOAT tk,
   LEX_TOKEN_DATA_FUNCTION tk, LEX_TOKEN_DATA_OBJECT_LITERAL tk,
   LEX_TOKEN_DATA_DESTRUCTURING_VAR tk, LEX_TOKEN_DATA_FORWARDER tk]

/-! ### `class CScriptToken` -/

/-- The members `line`, `column` and `token` of `CScriptToken` (each `uint16_t`). The anonymous
union (`intData`, `floatData`, `tokenData`) is not read by the assertions of the accessors. -/
structure CScriptToken where
  line : Nat
  column : Nat
  token : Nat
  deriving DecidableEq, Repr

/-- The assertion of `int &Int() { ASSERT(LEX_TOKEN_DATA_SIMPLE(token)); return intData; }` -/
def CScriptToken.Int_ASSERT (t : CScriptToken) : Bool := LEX_TOKEN_DATA_SIMPLE t.token

/-- The assertion of `std::string &String() { ASSERT(LEX_TOKEN_DATA_STRING(token)); ... }` -/
def CScriptToken.String_ASSERT (t : CScriptToken) : Bool := LEX_TOKEN_DATA_STRING t.token

/-- The assertion of `double &Float() { ASSERT(LEX_TOKEN_DATA_FLOAT(token)); ... }` -/
def CScriptToken.Float_ASSERT (t : CScriptToken) : Bool := LEX_TOKEN_DATA_FLOAT t.token

/-- The assertion of `CScriptTokenDataFnc &Fnc() { ASSERT(LEX_TOKEN_DATA_FUNCTION(token)); ... }`
(both the const and the non-const overload). -/
def CScriptToken.Fnc_ASSERT (t : CScriptToken) : Bool := LEX_TOKEN_DATA_FUNCTION t.token

/-- The assertion of `CScriptTokenDataObjectLiteral &Object()
{ ASSERT(LEX_TOKEN_DATA_OBJECT_LITERAL(token)); ... }` -/
def CScriptToken.Object_ASSERT (t : CScriptToken) : Bool := LEX_TOKEN_DATA_OBJECT_LITERAL t.token

/-- The assertion of `CScriptTokenDataDestructuringVar &DestructuringVar()
{ ASSERT(LEX_TOKEN_DATA_DESTRUCTURING_VAR(token)); ... }` -/
def CScriptToken.DestructuringVar_ASSERT (t : CScriptToken) : Bool :=
  LEX_TOKEN_DATA_DESTRUCTURING_VAR t.token

/-- The assertion of `CScriptTokenDataForwards &Forwarder()
{ ASSERT(LEX_TOKEN_DATA_FORWARDER(token)); ... }` -/
def CScriptToken.Forwarder_ASSERT (t : CScriptToken) : Bool := LEX_TOKEN_DATA_FORWARDER t.token

/-- The assertions of the seven accessors of one token, in the order `Int`, `String`, `Float`,
`Fnc`, `Object`, `DestructuringVar`, `Forwarder`. -/
def CScriptToken.accessor_ASSERTs (t : CScriptToken) : List Bool :=
  [t.Int_ASSERT, t.String_ASSERT, t.Float_ASSERT, t.Fnc_ASSERT, t.Object_ASSERT,
   t.DestructuringVar_ASSERT, t.Forwarder_ASSERT]

/-! ### `enum SCRIPTVARLINK_FLAGS` -/

/-- Flag `SCRIPTVARLINK_OWNED = 1<<0`. -/
def SCRIPTVARLINK_OWNED : Nat := 1 <<< 0
/-- Flag `SCRIPTVARLINK_WRITABLE = 1<<1`. -/
def SCRIPTVARLINK_WRITABLE : Nat := 1 <<< 1
/-- Flag `SCRIPTVARLINK_DELETABLE = 1<<2`. -/
def SCRIPTVARLINK_DELETABLE : Nat := 1 <<< 2
/-- Flag `SCRIPTVARLINK_ENUMERABLE = 1<<3`. -/
def SCRIPTVARLINK_ENUMERABLE : Nat := 1 <<< 3
/-- Flag `SCRIPTVARLINK_HIDDEN = 1<<4`. -/
def SCRIPTVARLINK_HIDDEN : Nat := 1 <<< 4
/-- Default `SCRIPTVARLINK_DEFAULT = WRITABLE | DELETABLE | ENUMERABLE`. -/
def SCRIPTVARLINK_DEFAULT : Nat :=
  SCRIPTVARLINK_WRITABLE ||| SCRIPTVARLINK_DELETABLE ||| SCRIPTVARLINK_ENUMERABLE
/-- Default `SCRIPTVARLINK_VARDEFAULT = WRITABLE | ENUMERABLE`. -/
def SCRIPTVARLINK_VARDEFAULT : Nat := SCRIPTVARLINK_WRITABLE ||| SCRIPTVARLINK_ENUMERABLE
/-- Default `SCRIPTVARLINK_NATIVEDEFAULT = WRITABLE`. -/
def SCRIPTVARLINK_NATIVEDEFAULT : Nat := SCRIPTVARLINK_WRITABLE

/-! ### `enum ERROR_TYPES` -/

/-- The enumeration `ERROR_TYPES`, enumerators in declaration order. -/
inductive ERROR_TYPES where
  | Error
  | EvalError
  | RangeError
  | ReferenceError
  | SyntaxError
  | TypeError
  deriving DecidableEq, Repr

/-- The integer value of an enumerator: `Error = 0`, every later one is its predecessor plus
one. -/
def ERROR_TYPES.val : ERROR_TYPES → Nat
  | .Error => 0
  | .EvalError => 0 + 1
  | .RangeError => 0 + 1 + 1
  | .ReferenceError => 0 + 1 + 1 + 1
  | .SyntaxError => 0 + 1 + 1 + 1 + 1
  | .TypeError => 0 + 1 + 1 + 1 + 1 + 1

/-- All enumerators of `ERROR_TYPES`, in declaration order. -/
def ERROR_TYPES.all : List ERROR_TYPES :=
  [.Error, .EvalError, .RangeError, .ReferenceError, .SyntaxError, .TypeError]

/-- The constant `#define ERROR_MAX TypeError`. -/
def ERROR_MAX : ERROR_TYPES := .TypeError
/-- The constant `#define ERROR_COUNT (ERROR_MAX+1)`. -/
def ERROR_COUNT : Nat := ERROR_MAX.val + 1

/-! ### Name constants -/

/-- `#define TINYJS_RETURN_VAR "return"` -/
def TINYJS_RETURN_VAR : String := "return"
/-- `#define TINYJS_LOKALE_VAR "__locale__"` -/
def TINYJS_LOKALE_VAR : String := "__locale__"
/-- `#define TINYJS_ANONYMOUS_VAR "__anonymous__"` -/
def TINYJS_ANONYMOUS_VAR : String := "__anonymous__"
/-- `#define TINYJS_ARGUMENTS_VAR "arguments"` -/
def TINYJS_ARGUMENTS_VAR : String := "arguments"
/-- `#define TINYJS___PROTO___VAR "__proto__"` -/
def TINYJS___PROTO___VAR : String := "__proto__"
/-- `#define TINYJS_PROTOTYPE_CLASS "prototype"` -/
def TINYJS_PROTOTYPE_CLASS : String := "prototype"
/-- `#define TINYJS_FUNCTION_CLOSURE_VAR "__function_closure__"` -/
def TINYJS_FUNCTION_CLOSURE_VAR : String := "__function_closure__"
/-- `#define TINYJS_SCOPE_PARENT_VAR "__scope_parent__"` -/
def TINYJS_SCOPE_PARENT_VAR : String := "__scope_parent__"
/-- `#define TINYJS_SCOPE_WITH_VAR "__scope_with__"` -/
def TINYJS_SCOPE_WITH_VAR : String := "__scope_with__"
/-- `#define TINYJS_ACCESSOR_GET_VAR "__accessor_get__"` -/
def TINYJS_ACCESSOR_GET_VAR : String := "__accessor_get__"
/-- `#define TINYJS_ACCESSOR_SET_VAR "__accessor_set__"` -/
def TINYJS_ACCESSOR_SET_VAR : String := "__accessor_set__"
/-- `#define TINYJS_TEMP_NAME ""` -/
def TINYJS_TEMP_NAME : String := ""

/-- The values of all `TINYJS_*_VAR` and `TINYJS_*_CLASS` string constants of the header, in the
order of their `#define` lines. -/
def TINYJS_NAME_CONSTANTS : List String :=
  [TINYJS_RETURN_VAR, TINYJS_LOKALE_VAR, TINYJS_ANONYMOUS_VAR, TINYJS_ARGUMENTS_VAR,
   TINYJS___PROTO___VAR, TINYJS_PROTOTYPE_CLASS, TINYJS_FUNCTION_CLOSURE_VAR,
   TINYJS_SCOPE_PARENT_VAR, TINYJS_SCOPE_WITH_VAR, TINYJS_ACCESSOR_GET_VAR,
   TINYJS_ACCESSOR_SET_VAR]

/-! ### `class CScriptVarLink` -/

/-- Address of a `CScriptVar` object. -/
abbrev VarAddr := Nat

/-- The data members of `CScriptVarLink` the inline code reads: `name`, `owner` (a raw
`CScriptVar *`), `flags` (`uint32_t`) and `var` (the target of the `CScriptVarPtr`). -/
structure CScriptVarLink where
  name : String
  owner : Option VarAddr
  flags : Nat
  var : Option VarAddr
  deriving DecidableEq, Repr

/-- `const std::string &getName() const { return name; }` -/
def CScriptVarLink.getName (l : CScriptVarLink) : String := l.name

/-- `bool isOwned() const { return (flags & SCRIPTVARLINK_OWNED) != 0; }` -/
def CScriptVarLink.isOwned (l : CScriptVarLink) : Bool := (l.flags &&& SCRIPTVARLINK_OWNED) != 0

/-- `bool isOwner() const { return owner!=0; }` -/
def CScriptVarLink.isOwner (l : CScriptVarLink) : Bool := l.owner != none

/-- `bool isWritable() const { return (flags & SCRIPTVARLINK_WRITABLE) != 0; }` -/
def CScriptVarLink.isWritable (l : CScriptVarLink) : Bool :=
  (l.flags &&& SCRIPTVARLINK_WRITABLE) != 0

/-- `bool isDeletable() const { return (flags & SCRIPTVARLINK_DELETABLE) != 0; }` -/
def CScriptVarLink.isDeletable (l : CScriptVarLink) : Bool :=
  (l.flags &&& SCRIPTVARLINK_DELETABLE) != 0

/-- `bool isEnumerable() const { return (flags & SCRIPTVARLINK_ENUMERABLE) != 0; }` -/
def CScriptVarLink.isEnumerable (l : CScriptVarLink) : Bool :=
  (l.flags &&& SCRIPTVARLINK_ENUMERABLE) != 0

/-- `bool isHidden() const { return (flags & SCRIPTVARLINK_HIDDEN) != 0; }` -/
def CScriptVarLink.isHidden (l : CScriptVarLink) : Bool := (l.flags &&& SCRIPTVARLINK_HIDDEN) != 0

/-! ### `CTinyJS::CheckRightHandVar` -/

/-- The position argument of `throwError`; `CScriptTokenizer::ScriptTokenPosition` is a position
in a token vector, kept here as the index. -/
abbrev ScriptTokenPosition := Nat

/-- One call `throwError(execute, ErrorType, message, Pos)`. -/
structure ThrowErrorCall where
  ErrorType : ERROR_TYPES
  message : String
  Pos : ScriptTokenPosition
  deriving DecidableEq, Repr

/-- `CheckRightHandVar(bool &execute, CScriptVarLinkWorkPtr &link,
CScriptTokenizer::ScriptTokenPosition &Pos)`:

    if(execute && link && !link->isOwned() && !link->isOwner() && !link->getName().empty())
      throwError(execute, ReferenceError, link->getName() + " is not defined", Pos);

`link` is the link the work pointer holds (`none` for a null work pointer). The body of
`throwError` is not in the header: `throwErr` is the value that call leaves in `execute`. The
result is the value of `execute` on return and the calls of `throwError` made, in order. -/
def CheckRightHandVar_Pos (throwErr : Bool → ThrowErrorCall → Bool) (execute : Bool)
    (link : Option CScriptVarLink) (Pos : ScriptTokenPosition) : Bool × List ThrowErrorCall :=
  match link with
  | none => (execute, [])
  | some l =>
    if execute && !l.isOwned && !l.isOwner && !(l.getName == "") then
      let call : ThrowErrorCall :=
        { ErrorType := .ReferenceError, message := l.getName ++ " is not defined", Pos := Pos }
      (throwErr execute call, [call])
    else (execute, [])

/-- `CheckRightHandVar(bool &execute, CScriptVarLinkWorkPtr &link)`: the same test, reporting at
`t->getPrevPos()`, the previous position of the current tokenizer (`prevPos`). -/
def CheckRightHandVar (throwErr : Bool → ThrowErrorCall → Bool) (prevPos : ScriptTokenPosition)
    (execute : Bool) (link : Option CScriptVarLink) : Bool × List ThrowErrorCall :=
  match link with
  | none => (execute, [])
  | some l =>
    if execute && !l.isOwned && !l.isOwner && !(l.getName == "") then
      let call : ThrowErrorCall :=
        { ErrorType := .ReferenceError, message := l.getName ++ " is not defined",
          Pos := prevPos }
      (throwErr execute call, [call])
    else (execute, [])

/-- The link `new CScriptVarLink(var, name, flags)` makes, as far as the header shows it: the
constructor is declared `CScriptVarLink(const CScriptVarPtr &var, const std::string &name =
TINYJS_TEMP_NAME, int flags = SCRIPTVARLINK_DEFAULT)`; `owner` is whatever the constructor body
in `TinyJS.cpp` stores. -/
def CScriptVarLink.create (owner : Option VarAddr) (var : Option VarAddr)
    (name : String) (flags : Nat) : CScriptVarLink :=
  { name := name, owner := owner, flags := flags, var := var }

/-! ### `class CScriptVar` and `class CScriptVarPrimitive` -/

/-- A `CScriptVarPtr`: the address of the value it holds, `none` for the 0-pointer. -/
abbrev CScriptVarPtr := Option VarAddr

/-- The data members of `CScriptVar` the inline code reads and writes: `extensible`, `refs` and
`temporaryID` (`uint32_t`). -/
structure CScriptVar where
  extensible : Bool
  refs : Int
  temporaryID : Nat
  deriving DecidableEq, Repr

/-- `bool isExtensible() { return extensible; }` -/
def CScriptVar.isExtensible (v : CScriptVar) : Bool := v.extensible

/-- `void setExtensible(bool On) { extensible=On; }` -/
def CScriptVar.setExtensible (v : CScriptVar) (On : Bool) : CScriptVar :=
  { v with extensible := On }

/-- A `CScriptVarPrimitive`: its `CScriptVar` base and the member `fakeObject`. -/
structure CScriptVarPrimitive where
  base : CScriptVar
  fakeObject : Bool
  deriving DecidableEq, Repr

/-- The member `isExtensible` a `CScriptVarPrimitive` inherits from `CScriptVar`. -/
def CScriptVarPrimitive.isExtensible (p : CScriptVarPrimitive) : Bool := p.base.isExtensible

/-- The member `setExtensible` a `CScriptVarPrimitive` inherits from `CScriptVar`. -/
def CScriptVarPrimitive.setExtensible (p : CScriptVarPrimitive) (On : Bool) :
    CScriptVarPrimitive :=
  { p with base := p.base.setExtensible On }

/-- `CScriptVarPrimitive(CTinyJS *Context, const CScriptVarPtr &Prototype) :
CScriptVar(Context, Prototype), fakeObject(false) { setExtensible(false); }`

The body of the base constructor `CScriptVar(Context, Prototype)` is not in the header: `base` is
the `CScriptVar` it leaves. `uninit` is the indeterminate content of `fakeObject` before its
member initializer runs. -/
def CScriptVarPrimitive.construct (base : CScriptVar) (uninit : Bool) : CScriptVarPrimitive :=
  let afterBase : CScriptVarPrimitive := { base := base, fakeObject := uninit }
  let afterInit : CScriptVarPrimitive := { afterBase with fakeObject := false }
  afterInit.setExtensible false

/-! ### Scope objects -/

/-- A scope object: the dynamic class of the object (`CScriptVarScope`, `CScriptVarScopeFnc`,
`CScriptVarScopeLet` or `CScriptVarScopeWith`), its address, and the constructor arguments
(`Closure`, `Parent`, `With`) it was created with; `Closure` and `With` are kept as addresses. -/
inductive CScriptVarScope where
  | Scope (addr : VarAddr)
  | ScopeFnc (addr : VarAddr) (Closure : CScriptVarPtr)
  | ScopeLet (addr : VarAddr) (Parent : CScriptVarScope)
  | ScopeWith (addr : VarAddr) (Parent : CScriptVarScope) (With : CScriptVarPtr)
  deriving DecidableEq, Repr

/-- Modelled from the spec: the bodies of the virtual `CScriptVarScope::getParent()` and of its
override `CScriptVarScopeLet::getParent()` (inherited by `CScriptVarScopeWith`) are in
`TinyJS.cpp`; the header only declares them. A let or with scope returns the scope it was created
over, a root or function scope returns the 0-pointer. -/
def CScriptVarScope.getParent : CScriptVarScope → Option CScriptVarScope
  | .Scope _ => none
  | .ScopeFnc _ _ => none
  | .ScopeLet _ Parent => some Parent
  | .ScopeWith _ Parent _ => some Parent

/-! ### `class CTinyJS` -/

/-- The data members of the context `CTinyJS` that its inline member functions read and write.
`scopes` is the `std::vector<CScriptVarScopePtr>`, as a list whose head is `scopes.back()`; its
entries are non-null (every use dereferences them). `errorPrototypes` is the array
`CScriptVarPtr errorPrototypes[ERROR_COUNT]`. `uniqueID` is a `uint32_t`. -/
structure CTinyJS where
  scopes : List CScriptVarScope
  errorPrototypes : Fin ERROR_COUNT → CScriptVarPtr
  constUndefined : CScriptVarPtr
  constNull : CScriptVarPtr
  constNaN : CScriptVarPtr
  constInfinityPositive : CScriptVarPtr
  constInfinityNegative : CScriptVarPtr
  constTrue : CScriptVarPtr
  constFalse : CScriptVarPtr
  constOne : CScriptVarPtr
  constZero : CScriptVarPtr
  uniqueID : Nat

/-- A context with the given scope stack and unique-ID counter; the nine constants are at the
addresses 1 to 9 and error prototype `i` is at address `10 + i`. -/
def CTinyJS.sample (scopes : List CScriptVarScope) (uniqueID : Nat) : CTinyJS :=
  { scopes := scopes
    errorPrototypes := fun i => some (10 + i.val)
    constUndefined := some 1
    constNull := some 2
    constNaN := some 3
    constInfinityPositive := some 4
    constInfinityNegative := some 5
    constTrue := some 6
    constFalse := some 7
    constOne := some 8
    constZero := some 9
    uniqueID := uniqueID }

/-- `const CScriptVarPtr &getErrorPrototype(ERROR_TYPES Type) { return errorPrototypes[Type]; }`
An index outside the array is undefined behaviour: `none`. -/
def CTinyJS.getErrorPrototype (c : CTinyJS) (ErrorType : ERROR_TYPES) : Option CScriptVarPtr :=
  if h : ErrorType.val < ERROR_COUNT then some (c.errorPrototypes ⟨ErrorType.val, h⟩) else none

/-- `uint32_t getUniqueID() { return ++uniqueID; }`: the returned value and the context after the
call. The increment of a `uint32_t` is modulo `2 ^ 32`. -/
def CTinyJS.getUniqueID (c : CTinyJS) : Nat × CTinyJS :=
  let c1 : CTinyJS := { c with uniqueID := (c.uniqueID + 1) % 2 ^ 32 }
  (c1.uniqueID, c1)

/-- The values returned by `n` successive calls of `getUniqueID` on one context, first call
first. -/
def CTinyJS.getUniqueID_calls : Nat → CTinyJS → List Nat
  | 0, _ => []
  | n + 1, c => (c.getUniqueID).1 :: CTinyJS.getUniqueID_calls n (c.getUniqueID).2

/-! ### `CTinyJS::constScriptVar` -/

/-- `class Infinity{public:Infinity(int Sig=1):sig(Sig){} int Sig(){return sig;}
private:int sig; }` -/
structure Infinity where
  sig : Int
  deriving DecidableEq, Repr

/-- `int Sig(){return sig;}` -/
def Infinity.Sig (t : Infinity) : Int := t.sig

/-- The data member of the context a `const CScriptVarPtr &` returned by `constScriptVar`
refers to. -/
inductive ConstMember where
  | constUndefined
  | constNull
  | constNaN
  | constInfinityPositive
  | constInfinityNegative
  | constTrue
  | constFalse
  | constOne
  | constZero
  deriving DecidableEq, Repr

/-- Reading a reference to a constant member of the context. -/
def CTinyJS.read (c : CTinyJS) : ConstMember → CScriptVarPtr
  | .constUndefined => c.constUndefined
  | .constNull => c.constNull
  | .constNaN => c.constNaN
  | .constInfinityPositive => c.constInfinityPositive
  | .constInfinityNegative => c.constInfinityNegative
  | .constTrue => c.constTrue
  | .constFalse => c.constFalse
  | .constOne => c.constOne
  | .constZero => c.constZero

/-- The argument that selects one of the seven overloads of `constScriptVar`: the tag types
`Undefined_t`, `Null_t`, `NaN_t`, `Zero_t`, `One_t`, an `Infinity` or a `bool`. -/
inductive ConstArg where
  | Undefined
  | Null
  | NaN
  | Infinity (t : TinyJS.Infinity)
  | bool (Val : Bool)
  | Zero
  | One
  deriving DecidableEq, Repr

/-- The seven overloads of `CTinyJS::constScriptVar`:

    const CScriptVarPtr &constScriptVar(Undefined_t) { return constUndefined; }
    const CScriptVarPtr &constScriptVar(Null_t)      { return constNull; }
    const CScriptVarPtr &constScriptVar(NaN_t)       { return constNaN; }
    const CScriptVarPtr &constScriptVar(Infinity t)
      { return t.Sig()<0 ? constInfinityNegative : constInfinityPositive; }
    const CScriptVarPtr &constScriptVar(bool Val)    { return Val?constTrue:constFalse; }
    const CScriptVarPtr &constScriptVar(Zero_t)      { return constZero; }
    const CScriptVarPtr &constScriptVar(One_t)       { return constOne; }

The result is the member the returned reference refers to and the context after the call. -/
def CTinyJS.constScriptVar (c : CTinyJS) : ConstArg → ConstMember × CTinyJS
  | .Undefined => (.constUndefined, c)
  | .Null => (.constNull, c)
  | .NaN => (.constNaN, c)
  | .Infinity t => (if t.Sig < 0 then .constInfinityNegative else .constInfinityPositive, c)
  | .bool Val => (if Val then .constTrue else .constFalse, c)
  | .Zero => (.constZero, c)
  | .One => (.constOne, c)

/-! ### `class CTinyJS::CScopeControl` -/

/-- A `CScopeControl`: the context its member `context` points at and the member `count`
(an `int` that is only incremented from 0; kept as a natural number). -/
structure CScopeControl where
  context : CTinyJS
  count : Nat

/-- `CScopeControl(CTinyJS *Context) : context(Context), count(0) {}` -/
def CScopeControl.construct (Context : CTinyJS) : CScopeControl :=
  { context := Context, count := 0 }

/-- `void addFncScope(const CScriptVarScopePtr &Scope)
{ context->scopes.push_back(Scope); count++; }` -/
def CScopeControl.addFncScope (sc : CScopeControl) (Scope : CScriptVarScope) : CScopeControl :=
  { context := { sc.context with scopes := Scope :: sc.context.scopes }, count := sc.count + 1 }

/-- `CScriptVarScopeLetPtr addLetScope() { count++; return context->scopes.back() =
::newScriptVar(context, ScopeLet, context->scopes.back()); }`

`addr` is the address of the `new CScriptVarScopeLet(Parent)`. The result is the returned scope
and the control after the call; `scopes.back()` of an empty vector is undefined: `none`. -/
def CScopeControl.addLetScope (sc : CScopeControl) (addr : VarAddr) :
    Option (CScriptVarScope × CScopeControl) :=
  match sc.context.scopes with
  | [] => none
  | back :: rest =>
    let newScope := CScriptVarScope.ScopeLet addr back
    some (newScope,
      { context := { sc.context with scopes := newScope :: rest }, count := sc.count + 1 })

/-- `void addWithScope(const CScriptVarPtr &With) { context->scopes.back() =
::newScriptVar(context, ScopeWith, context->scopes.back(), With); count++; }`

`addr` is the address of the `new CScriptVarScopeWith(Parent, With)`; `scopes.back()` of an empty
vector is undefined: `none`. -/
def CScopeControl.addWithScope (sc : CScopeControl) (addr : VarAddr) (With : CScriptVarPtr) :
    Option CScopeControl :=
  match sc.context.scopes with
  | [] => none
  | back :: rest =>
    let newScope := CScriptVarScope.ScopeWith addr back With
    some { context := { sc.context with scopes := newScope :: rest }, count := sc.count + 1 }

/-- The loop of the destructor on the scope stack, `count` iterations:

    while(count--) {
      CScriptVarScopePtr parent = context->scopes.back()->getParent();
      if(parent) context->scopes.back() = parent; else context->scopes.pop_back();
    }

`scopes.back()` of an empty vector is undefined: `none`. -/
def CScopeControl.destructorLoop : Nat → List CScriptVarScope → Option (List CScriptVarScope)
  | 0, scopes => some scopes
  | _ + 1, [] => none
  | count + 1, back :: rest =>
    match back.getParent with
    | some parent => CScopeControl.destructorLoop count (parent :: rest)
    | none => CScopeControl.destructorLoop count rest

/-- `~CScopeControl()`: the context after the destructor has run. -/
def CScopeControl.destructor (sc : CScopeControl) : Option CTinyJS :=
  (CScopeControl.destructorLoop sc.count sc.context.scopes).map
    fun scopes => { sc.context with scopes := scopes }

/-- One call made through a `CScopeControl`. -/
inductive ScopeCall where
  | addFncScope (Scope : CScriptVarScope)
  | addLetScope (addr : VarAddr)
  | addWithScope (addr : VarAddr) (With : CScriptVarPtr)
  deriving DecidableEq, Repr

/-- The control after one call. -/
def CScopeControl.call (sc : CScopeControl) : ScopeCall → Option CScopeControl
  | .addFncScope Scope => some (sc.addFncScope Scope)
  | .addLetScope addr => (sc.addLetScope addr).map Prod.snd
  | .addWithScope addr With => sc.addWithScope addr With

/-- The control after a sequence of calls, first call first. -/
def CScopeControl.calls (sc : CScopeControl) : List ScopeCall → Option CScopeControl
  | [] => some sc
  | c :: cs => (sc.call c).bind fun sc1 => CScopeControl.calls sc1 cs

/-- The whole life of one `CScopeControl` on a context: construction, the calls, destruction.
The result is the context afterwards. -/
def CScopeControl.lifetime (Context : CTinyJS) (cs : List ScopeCall) : Option CTinyJS :=
  ((CScopeControl.construct Context).calls cs).bind CScopeControl.destructor

/-- The scopes a sequence of calls hands to `addFncScope`. -/
def ScopeCall.fncScopes : List ScopeCall → List CScriptVarScope
  | [] => []
  | .addFncScope Scope :: cs => Scope :: ScopeCall.fncScopes cs
  | _ :: cs => ScopeCall.fncScopes cs

/-- Whether the first call of a sequence, if there is one, is `addFncScope`. -/
def ScopeCall.startsWithFnc : List ScopeCall → Bool
  | [] => true
  | .addFncScope _ :: _ => true
  | _ :: _ => false

/-! ### The member `token` of `CScriptToken` -/

/-- The conversion of an `int` token kind to the `uint16_t` member `token`, as a constructor such
as `CScriptToken(uint16_t Tk, int IntData=0)` receives it: the value modulo `2 ^ 16`. -/
def uint16_of (Tk : Nat) : Nat := Tk % 2 ^ 16

/-- A token of a given kind, stored in and read back from the member `token`. -/
def CScriptToken.store_token (t : CScriptToken) (Tk : Nat) : CScriptToken :=
  { t with token := uint16_of Tk }

/-! ### `enum RUNTIME_FLAGS` -/

/-- Flag `RUNTIME_BREAK = 1<<0`. -/
def RUNTIME_BREAK : Nat := 1 <<< 0
/-- Flag `RUNTIME_CONTINUE = 1<<1`. -/
def RUNTIME_CONTINUE : Nat := 1 <<< 1
/-- Flag `RUNTIME_CAN_THROW = 1<<2`. -/
def RUNTIME_CAN_THROW : Nat := 1 <<< 2
/-- Flag `RUNTIME_THROW = 1<<3`. -/
def RUNTIME_THROW : Nat := 1 <<< 3
/-- Mask `RUNTIME_THROW_MASK = RUNTIME_CAN_THROW | RUNTIME_THROW`. -/
def RUNTIME_THROW_MASK : Nat := RUNTIME_CAN_THROW ||| RUNTIME_THROW

/-- The bit pattern of `~F` in the 32-bit `int runtimeFlags`: all 32 bits of `F` flipped. -/
def bitNot32 (F : Nat) : Nat := (2 ^ 32 - 1) ^^^ F

/-- The C idiom that sets a flag in a flag word: `runtimeFlags |= F`. -/
def flag_set (runtimeFlags F : Nat) : Nat := runtimeFlags ||| F
/-- The C idiom that clears a flag in a flag word: `runtimeFlags &= ~F`. -/
def flag_clear (runtimeFlags F : Nat) : Nat := runtimeFlags &&& bitNot32 F
/-- The C idiom that tests a flag in a flag word: `(runtimeFlags & F) != 0`. -/
def flag_test (runtimeFlags F : Nat) : Bool := (runtimeFlags &&& F) != 0

/-! ### `class CScriptException` -/

/-- The data members of `CScriptException`; `lineNumber` and `column` are `int`. -/
structure CScriptException where
  errorType : ERROR_TYPES
  message : String
  fileName : String
  lineNumber : Int
  column : Int
  deriving DecidableEq, Repr

/-- `CScriptException(const std::string &Message, const std::string &File, int Line=-1,
int Column=-1) : errorType(Error), message(Message), fileName(File), lineNumber(Line),
column(Column){}`. An argument with a default value is `none` when the call leaves it out. -/
def CScriptException.construct_Message_File (Message File : String)
    (Line Column : Option Int) : CScriptException :=
  { errorType := .Error, message := Message, fileName := File,
    lineNumber := Line.getD (-1), column := Column.getD (-1) }

/-- `CScriptException(ERROR_TYPES ErrorType, const std::string &Message,
const std::string &File, int Line=-1, int Column=-1) : errorType(ErrorType), message(Message),
fileName(File), lineNumber(Line), column(Column){}` -/
def CScriptException.construct_ErrorType_Message_File (ErrorType : ERROR_TYPES)
    (Message File : String) (Line Column : Option Int) : CScriptException :=
  { errorType := ErrorType, message := Message, fileName := File,
    lineNumber := Line.getD (-1), column := Column.getD (-1) }

/-- `CScriptException(const std::string &Message, const char *File="", int Line=-1,
int Column=-1) : errorType(Error), message(Message), fileName(File), lineNumber(Line),
column(Column){}`; the C string `File` is the string it spells. -/
def CScriptException.construct_Message_CFile (Message : String) (File : Option String)
    (Line Column : Option Int) : CScriptException :=
  { errorType := .Error, message := Message, fileName := File.getD "",
    lineNumber := Line.getD (-1), column := Column.getD (-1) }

/-- `CScriptException(ERROR_TYPES ErrorType, const std::string &Message, const char *File="",
int Line=-1, int Column=-1) : errorType(ErrorType), message(Message), fileName(File),
lineNumber(Line), column(Column){}` -/
def CScriptException.construct_ErrorType_Message_CFile (ErrorType : ERROR_TYPES)
    (Message : String) (File : Option String) (Line Column : Option Int) : CScriptException :=
  { errorType := ErrorType, message := Message, fileName := File.getD "",
    lineNumber := Line.getD (-1), column := Column.getD (-1) }

/-! ### `class CScriptVarRegExp` -/

/-- The data members `regexp` and `flags` of `CScriptVarRegExp`. -/
structure CScriptVarRegExp where
  regexp : String
  flags : String
  deriving DecidableEq, Repr

/-- The search of `std::string::find(char)` from index `i` on: the index of the first
occurrence of `ch`, or `none` for `std::string::npos`. -/
def std_string_find_from : List Char → Char → Nat → Option Nat
  | [], _, _ => none
  | c :: cs, ch, i => if c = ch then some i else std_string_find_from cs ch (i + 1)

/-- `std::string::find(char)`: the index of the first occurrence of `ch` in the string, or
`none` for `std::string::npos`. -/
def std_string_find (str : String) (ch : Char) : Option Nat :=
  std_string_find_from str.data ch 0

/-- `bool Global() { return flags.find('g')!=std::string::npos; }` -/
def CScriptVarRegExp.Global (r : CScriptVarRegExp) : Bool := std_string_find r.flags 'g' != none

/-- `bool IgnoreCase() { return flags.find('i')!=std::string::npos; }` -/
def CScriptVarRegExp.IgnoreCase (r : CScriptVarRegExp) : Bool :=
  std_string_find r.flags 'i' != none

/-- `bool Multiline() { return true; /* currently always true --
flags.find('m')!=std::string::npos;*/ }` -/
def CScriptVarRegExp.Multiline (_r : CScriptVarRegExp) : Bool := true

/-- `bool Sticky() { return flags.find('y')!=std::string::npos; }` -/
def CScriptVarRegExp.Sticky (r : CScriptVarRegExp) : Bool := std_string_find r.flags 'y' != none

/-! ### The constructors of `CScriptVarScopeFnc` and `CScriptVarScopeWith` -/

/-- Address of a `CScriptVarLink` object. -/
abbrev LinkAddr := Nat

/-- One call `addChild(childName, child, linkFlags)` on the object under construction. -/
structure AddChildCall where
  childName : String
  child : CScriptVarPtr
  linkFlags : Nat
  deriving DecidableEq, Repr

/-- `CScriptVarScopeFnc(CTinyJS *Context, const CScriptVarScopePtr &Closure) :
CScriptVarScope(Context), closure(Closure ? addChild(TINYJS_FUNCTION_CLOSURE_VAR, Closure, 0) :
CScriptVarLinkPtr()) {}`

The body of `addChild` is not in the header: `addChild` is the link that call returns, and
`baseCalls` are the `addChild` calls the base constructor `CScriptVarScope(Context)` made. The
result is the member `closure` (the link it holds, `none` for a null link) and all `addChild`
calls of the construction, in order. -/
def CScriptVarScopeFnc_construct (addChild : AddChildCall → Option LinkAddr)
    (baseCalls : List AddChildCall) (Closure : CScriptVarPtr) :
    Option LinkAddr × List AddChildCall :=
  match Closure with
  | some _ =>
    let call : AddChildCall :=
      { childName := TINYJS_FUNCTION_CLOSURE_VAR, child := Closure, linkFlags := 0 }
    (addChild call, baseCalls ++ [call])
  | none => (none, baseCalls)

/-- `CScriptVarScopeWith(const CScriptVarScopePtr &Parent, const CScriptVarPtr &With) :
CScriptVarScopeLet(Parent), with(addChild(TINYJS_SCOPE_WITH_VAR, With, 0)) {}`

`addChild` is the link that call returns and `baseCalls` are the `addChild` calls the base
constructor `CScriptVarScopeLet(Parent)` made (its body is in `TinyJS.cpp`). The result is the
member `with` and all `addChild` calls of the construction, in order. -/
def CScriptVarScopeWith_construct (addChild : AddChildCall → Option LinkAddr)
    (baseCalls : List AddChildCall) (With : CScriptVarPtr) :
    Option LinkAddr × List AddChildCall :=
  let call : AddChildCall :=
    { childName := TINYJS_SCOPE_WITH_VAR, child := With, linkFlags := 0 }
  (addChild call, baseCalls ++ [call])

/-! ### `class CScriptVarPtr` and `class CScriptVarLinkWorkPtr` -/

/-- One call of a reference-count member function. `CScriptVar::ref`, `CScriptVar::unref`,
`CScriptVarLink::ref` and `CScriptVarLink::unref` are declared in the header and defined in
`TinyJS.cpp`; the embedding records the calls. -/
inductive RefCall where
  | var_ref (a : VarAddr)
  | var_unref (a : VarAddr)
  | link_ref (a : LinkAddr)
  | link_unref (a : LinkAddr)
  deriving DecidableEq, Repr

/-- `CScriptVar *getOwner() { return owner; }` -/
def CScriptVarLink.getOwner (l : CScriptVarLink) : Option VarAddr := l.owner

/-- The statement `if(var) var->ref();`. -/
def CScriptVarPtr.ref_if (var : Option VarAddr) : List RefCall :=
  match var with
  | some a => [.var_ref a]
  | none => []

/-- The statement `if(var) var->unref();`. -/
def CScriptVarPtr.unref_if (var : Option VarAddr) : List RefCall :=
  match var with
  | some a => [.var_unref a]
  | none => []

/-- `CScriptVarPtr() : var(0) {}` -/
def CScriptVarPtr.construct_default : CScriptVarPtr := none

/-- `CScriptVarPtr(CScriptVar *Var) : var(Var) { if(var) var->ref(); }`: the handle and the
reference-count calls made. -/
def CScriptVarPtr.construct_Var (Var : Option VarAddr) : CScriptVarPtr × List RefCall :=
  (Var, CScriptVarPtr.ref_if Var)

/-- `CScriptVarPtr& operator=(const CScriptVarPtr &Copy) { if(var != Copy.var) {
if(var) var->unref(); var = Copy.var; if(var) var->ref(); } return *this; }` -/
def CScriptVarPtr.assign (self Copy : CScriptVarPtr) : CScriptVarPtr × List RefCall :=
  if self ≠ Copy then (Copy, CScriptVarPtr.unref_if self ++ CScriptVarPtr.ref_if Copy)
  else (self, [])

/-- `~CScriptVarPtr() { if(var) var->unref(); }` -/
def CScriptVarPtr.destruct (self : CScriptVarPtr) : List RefCall := CScriptVarPtr.unref_if self

/-- `void clear() { if(var) var->unref(); var=0; }` -/
def CScriptVarPtr.clear (self : CScriptVarPtr) : CScriptVarPtr × List RefCall :=
  (none, CScriptVarPtr.unref_if self)

/-- A `CScriptVarLinkWorkPtr`: the member `link` of its base `CScriptVarLinkPtr` (a raw
`CScriptVarLink *`) and its own member `referencedOwner` (a `CScriptVarPtr`). -/
structure CScriptVarLinkWorkPtr where
  link : Option LinkAddr
  referencedOwner : CScriptVarPtr
  deriving DecidableEq, Repr

/-- `const CScriptVarPtr &getReferencedOwner() { return referencedOwner; }` -/
def CScriptVarLinkWorkPtr.getReferencedOwner (w : CScriptVarLinkWorkPtr) : CScriptVarPtr :=
  w.referencedOwner

/-- `CScriptVarLinkWorkPtr() {}`: the base `CScriptVarLinkPtr() : link(0) {}` and a default
`referencedOwner`. -/
def CScriptVarLinkWorkPtr.construct_default : CScriptVarLinkWorkPtr :=
  { link := none, referencedOwner := CScriptVarPtr.construct_default }

/-- `CScriptVarLinkWorkPtr(const CScriptVarPtr &var, const std::string &name, int flags) :
CScriptVarLinkPtr(var, name, flags) {}` with the base constructor
`{ link=(new CScriptVarLink(var, name, flags))->ref(); }`.

`addr` is the address of the new link and `refReturn` the pointer its `ref()` returns. -/
def CScriptVarLinkWorkPtr.construct_var_name_flags (addr : LinkAddr)
    (refReturn : Option LinkAddr) : CScriptVarLinkWorkPtr × List RefCall :=
  ({ link := refReturn, referencedOwner := CScriptVarPtr.construct_default }, [.link_ref addr])

/-- `CScriptVarLinkWorkPtr(CScriptVarLink *Link) : CScriptVarLinkPtr(Link)
{ if(link) referencedOwner = link->getOwner(); }` with the base constructor
`CScriptVarLinkPtr(CScriptVarLink *Link) : link(Link) { if(link) link->ref(); }`.

`mem` gives the link stored at an address. The assignment converts the `CScriptVar *` to a
temporary `CScriptVarPtr`, assigns it and destroys the temporary. -/
def CScriptVarLinkWorkPtr.construct_Link (mem : LinkAddr → CScriptVarLink)
    (Link : Option LinkAddr) : CScriptVarLinkWorkPtr × List RefCall :=
  match Link with
  | none => ({ link := none, referencedOwner := CScriptVarPtr.construct_default }, [])
  | some a =>
    let temporary := CScriptVarPtr.construct_Var (mem a).getOwner
    let assigned := CScriptVarPtr.assign CScriptVarPtr.construct_default temporary.1
    ({ link := some a, referencedOwner := assigned.1 },
      [RefCall.link_ref a] ++ temporary.2 ++ assigned.2 ++ CScriptVarPtr.destruct temporary.1)

/-- `CScriptVarLinkWorkPtr(const CScriptVarLinkPtr &Copy) : CScriptVarLinkPtr(Copy)
{ if(link) referencedOwner = link->getOwner(); }` with the base copy constructor
`CScriptVarLinkPtr(const CScriptVarLinkPtr &Copy) : link(Copy.link) { if(link) link->ref(); }`.
`Copy` is the member `link` of the handle copied from. -/
def CScriptVarLinkWorkPtr.construct_LinkPtr (mem : LinkAddr → CScriptVarLink)
    (Copy : Option LinkAddr) : CScriptVarLinkWorkPtr × List RefCall :=
  match Copy with
  | none => ({ link := none, referencedOwner := CScriptVarPtr.construct_default }, [])
  | some a =>
    let temporary := CScriptVarPtr.construct_Var (mem a).getOwner
    let assigned := CScriptVarPtr.assign CScriptVarPtr.construct_default temporary.1
    ({ link := some a, referencedOwner := assigned.1 },
      [RefCall.link_ref a] ++ temporary.2 ++ assigned.2 ++ CScriptVarPtr.destruct temporary.1)

/-- `CScriptVarLinkWorkPtr &operator()(const CScriptVarPtr &var, const std::string &name,
int flags) {CScriptVarLinkPtr::operator()(var, name, flags); referencedOwner.clear();
return *this; }`

The body of `CScriptVarLinkPtr::operator()` is in `TinyJS.cpp`: `baseLink` is the member `link`
it leaves and `baseCalls` the reference-count calls it makes. -/
def CScriptVarLinkWorkPtr.reconstruct (w : CScriptVarLinkWorkPtr) (baseLink : Option LinkAddr)
    (baseCalls : List RefCall) : CScriptVarLinkWorkPtr × List RefCall :=
  let cleared := CScriptVarPtr.clear w.referencedOwner
  ({ link := baseLink, referencedOwner := cleared.1 }, baseCalls ++ cleared.2)

/-- `void clear() { CScriptVarLinkPtr::clear(); referencedOwner.clear(); }` with the base
`void clear() { if(link) link->unref(); link=0; }`. -/
def CScriptVarLinkWorkPtr.clear (w : CScriptVarLinkWorkPtr) :
    CScriptVarLinkWorkPtr × List RefCall :=
  let baseCalls : List RefCall :=
    match w.link with
    | some a => [.link_unref a]
    | none => []
  let cleared := CScriptVarPtr.clear w.referencedOwner
  ({ link := none, referencedOwner := cleared.1 }, baseCalls ++ cleared.2)

/-! ### The flag setters of `CScriptVarLink` -/

/-- `void setOwned(bool On) { On ? (flags |= SCRIPTVARLINK_OWNED) :
(flags &= ~SCRIPTVARLINK_OWNED); }` -/
def CScriptVarLink.setOwned (l : CScriptVarLink) (On : Bool) : CScriptVarLink :=
  if On then { l with flags := l.flags ||| SCRIPTVARLINK_OWNED }
  else { l with flags := l.flags &&& bitNot32 SCRIPTVARLINK_OWNED }

/-- `void setWritable(bool On) { On ? (flags |= SCRIPTVARLINK_WRITABLE) :
(flags &= ~SCRIPTVARLINK_DELETABLE); }` -/
def CScriptVarLink.setWritable (l : CScriptVarLink) (On : Bool) : CScriptVarLink :=
  if On then { l with flags := l.flags ||| SCRIPTVARLINK_WRITABLE }
  else { l with flags := l.flags &&& bitNot32 SCRIPTVARLINK_DELETABLE }

/-- `void setDeletable(bool On) { On ? (flags |= SCRIPTVARLINK_DELETABLE) :
(flags &= ~SCRIPTVARLINK_DELETABLE); }` -/
def CScriptVarLink.setDeletable (l : CScriptVarLink) (On : Bool) : CScriptVarLink :=
  if On then { l with flags := l.flags ||| SCRIPTVARLINK_DELETABLE }
  else { l with flags := l.flags &&& bitNot32 SCRIPTVARLINK_DELETABLE }

/-- `void setEnumerable(bool On) { On ? (flags |= SCRIPTVARLINK_ENUMERABLE) :
(flags &= ~SCRIPTVARLINK_ENUMERABLE); }` -/
def CScriptVarLink.setEnumerable (l : CScriptVarLink) (On : Bool) : CScriptVarLink :=
  if On then { l with flags := l.flags ||| SCRIPTVARLINK_ENUMERABLE }
  else { l with flags := l.flags &&& bitNot32 SCRIPTVARLINK_ENUMERABLE }

/-- `void setHidden(bool On) { On ? (flags |= SCRIPTVARLINK_HIDDEN) :
(flags &= ~SCRIPTVARLINK_HIDDEN); }` -/
def CScriptVarLink.setHidden (l : CScriptVarLink) (On : Bool) : CScriptVarLink :=
  if On then { l with flags := l.flags ||| SCRIPTVARLINK_HIDDEN }
  else { l with flags := l.flags &&& bitNot32 SCRIPTVARLINK_HIDDEN }

/-! ### Reference accounting of `CScriptVarPtr` and `CScriptVarLinkPtr` -/

/-- `CScriptVarPtr(const CScriptVarPtr &Copy) : var(Copy.var) { if(var) var->ref(); }` -/
def CScriptVarPtr.construct_Copy (Copy : CScriptVarPtr) : CScriptVarPtr × List RefCall :=
  (Copy, CScriptVarPtr.ref_if Copy)

/-- `bool operator ==(const CScriptVarPtr &Other) const { return var == Other.var; }` -/
def CScriptVarPtr.eq (self Other : CScriptVarPtr) : Bool := self == Other

/-- A `CScriptVarLinkPtr`: its member `link`, a raw `CScriptVarLink *`. -/
abbrev CScriptVarLinkPtr := Option LinkAddr

/-- The statement `if(link) link->ref();`. -/
def CScriptVarLinkPtr.ref_if (link : Option LinkAddr) : List RefCall :=
  match link with
  | some a => [.link_ref a]
  | none => []

/-- The statement `if(link) link->unref();`. -/
def CScriptVarLinkPtr.unref_if (link : Option LinkAddr) : List RefCall :=
  match link with
  | some a => [.link_unref a]
  | none => []

/-- `CScriptVarLinkPtr(CScriptVarLink *Link) : link(Link) { if(link) link->ref(); }` -/
def CScriptVarLinkPtr.construct_Link (Link : Option LinkAddr) :
    CScriptVarLinkPtr × List RefCall :=
  (Link, CScriptVarLinkPtr.ref_if Link)

/-- `CScriptVarLinkPtr(const CScriptVarLinkPtr &Copy) : link(Copy.link)
{ if(link) link->ref(); }` -/
def CScriptVarLinkPtr.construct_Copy (Copy : CScriptVarLinkPtr) :
    CScriptVarLinkPtr × List RefCall :=
  (Copy, CScriptVarLinkPtr.ref_if Copy)

/-- `CScriptVarLinkPtr &operator=(const CScriptVarLinkPtr &Copy) { if(link != Copy.link) {
if(link) link->unref(); link = Copy.link; if(link) link->ref(); } return *this; }` -/
def CScriptVarLinkPtr.assign (self Copy : CScriptVarLinkPtr) :
    CScriptVarLinkPtr × List RefCall :=
  if self ≠ Copy then
    (Copy, CScriptVarLinkPtr.unref_if self ++ CScriptVarLinkPtr.ref_if Copy)
  else (self, [])

/-- `~CScriptVarLinkPtr() { if(link) link->unref(); }` -/
def CScriptVarLinkPtr.destruct (self : CScriptVarLinkPtr) : List RefCall :=
  CScriptVarLinkPtr.unref_if self

/-- `void clear() { if(link) link->unref(); link=0; }` -/
def CScriptVarLinkPtr.clear (self : CScriptVarLinkPtr) : CScriptVarLinkPtr × List RefCall :=
  (none, CScriptVarLinkPtr.unref_if self)

/-- The net effect of a log of reference-count calls on the value at address `v`: the number of
`ref()` calls on it minus the number of `unref()` calls on it. -/
def RefCall.net_var (v : VarAddr) : List RefCall → Int
  | [] => 0
  | .var_ref a :: cs => (if a = v then 1 else 0) + RefCall.net_var v cs
  | .var_unref a :: cs => (if a = v then -1 else 0) + RefCall.net_var v cs
  | _ :: cs => RefCall.net_var v cs

/-- The net effect of a log of reference-count calls on the link at address `l`. -/
def RefCall.net_link (l : LinkAddr) : List RefCall → Int
  | [] => 0
  | .link_ref a :: cs => (if a = l then 1 else 0) + RefCall.net_link l cs
  | .link_unref a :: cs => (if a = l then -1 else 0) + RefCall.net_link l cs
  | _ :: cs => RefCall.net_link l cs

/-- `void swap(CScriptVarLinkWorkPtr &Link) {
CScriptVarPtr _referencedOwner = referencedOwner; referencedOwner = Link.referencedOwner;
Link.referencedOwner = _referencedOwner;
CScriptVarLink *_link=link; link=Link.link; Link.link=_link; }`

The result is `*this` and `Link` after the call and the reference-count calls made, the last
being the one of the destructor of the local `_referencedOwner`. -/
def CScriptVarLinkWorkPtr.swap (self Link : CScriptVarLinkWorkPtr) :
    CScriptVarLinkWorkPtr × CScriptVarLinkWorkPtr × List RefCall :=
  let _referencedOwner := CScriptVarPtr.construct_Copy self.referencedOwner
  let assignedSelf := CScriptVarPtr.assign self.referencedOwner Link.referencedOwner
  let assignedLink := CScriptVarPtr.assign Link.referencedOwner _referencedOwner.1
  let _link := self.link
  ({ link := Link.link, referencedOwner := assignedSelf.1 },
   { link := _link, referencedOwner := assignedLink.1 },
   _referencedOwner.2 ++ assignedSelf.2 ++ assignedLink.2 ++
     CScriptVarPtr.destruct _referencedOwner.1)

/-! ### `class CScriptTokenData` -/

/-- `CScriptTokenData() : refs(0){}`: the member `refs` (an `int`, kept as an integer) of a
fresh payload. -/
def CScriptTokenData.construct : Int := 0

/-- `void ref() { refs++; }`: the member `refs` after the call. -/
def CScriptTokenData.ref (refs : Int) : Int := refs + 1

/-- `void unref() { if(--refs == 0) delete this; }`: the member `refs` after the decrement and
whether `delete this` ran. -/
def CScriptTokenData.unref (refs : Int) : Int × Bool := (refs - 1, refs - 1 == 0)

/-- One call on a payload: `ref()` or `unref()`. -/
inductive TokenDataCall where
  | ref
  | unref
  deriving DecidableEq, Repr

/-- The position, counted from 0, of the call in a sequence of calls that deletes a payload with
the given `refs`; `none` when no call of the sequence deletes it. Calls after the deleting one
act on a deleted object and are not followed. -/
def CScriptTokenData.deletedBy : List TokenDataCall → Int → Option Nat
  | [], _ => none
  | .ref :: cs, refs =>
    (CScriptTokenData.deletedBy cs (CScriptTokenData.ref refs)).map (fun i => i + 1)
  | .unref :: cs, refs =>
    if (CScriptTokenData.unref refs).2 then some 0
    else (CScriptTokenData.deletedBy cs (CScriptTokenData.unref refs).1).map (fun i => i + 1)

/-- The number of `ref()` calls minus the number of `unref()` calls in a sequence. -/
def TokenDataCall.balance : List TokenDataCall → Int
  | [] => 0
  | .ref :: cs => 1 + TokenDataCall.balance cs
  | .unref :: cs => -1 + TokenDataCall.balance cs

/-! ### `CScriptToken::String` and `CScriptTokenizer::tkStr` -/

/-- A payload object a token points at: its dynamic class (one of the five classes derived from
`CScriptTokenData`) and, for a `CScriptTokenDataString`, its member `tokenStr`. -/
inductive TokenPayload where
  | String (tokenStr : String)
  | Fnc
  | Forwards
  | DestructuringVar
  | ObjectLiteral
  deriving DecidableEq, Repr

/-- The anonymous union of `CScriptToken`, by the member last stored: `int intData`,
`double *floatData` (kept as an address) or `CScriptTokenData *tokenData` (kept as the payload it
points at). -/
inductive TokenUnion where
  | intData (v : Int)
  | floatData (addr : Nat)
  | tokenData (payload : TokenPayload)
  deriving DecidableEq, Repr

/-- A whole `CScriptToken`: the members `line`, `column`, `token` and the anonymous union. -/
structure CScriptTokenObject where
  head : CScriptToken
  data : TokenUnion
  deriving DecidableEq, Repr

/-- `CScriptToken() : line(0), column(0), token(0), intData(0) {}` -/
def CScriptTokenObject.construct_default : CScriptTokenObject :=
  { head := { line := 0, column := 0, token := 0 }, data := .intData 0 }

/-- What a call of an accessor that starts with an `ASSERT` comes to: the value it returns, a
failed assertion, or undefined behaviour behind a passed assertion (a `dynamic_cast` to a class
the payload does not have, or a union member that was not the one stored). -/
inductive Access (α : Type) where
  | value (a : α)
  | assertFails
  | undefined
  deriving DecidableEq, Repr

/-- `std::string &String() { ASSERT(LEX_TOKEN_DATA_STRING(token));
return dynamic_cast<CScriptTokenDataString*>(tokenData)->tokenStr; }` -/
def CScriptTokenObject.String (t : CScriptTokenObject) : Access String :=
  if LEX_TOKEN_DATA_STRING t.head.token then
    match t.data with
    | .tokenData (.String tokenStr) => .value tokenStr
    | _ => .undefined
  else .assertFails

/-- `const std::string &tkStr() { static std::string empty;
return LEX_TOKEN_DATA_STRING(getToken().token)?getToken().String():empty; }`

`current` is the token `getToken()` returns. The result is what the call comes to and the number
of calls of `String()` it made. -/
def CScriptTokenizer.tkStr (current : CScriptTokenObject) : Access String × Nat :=
  if LEX_TOKEN_DATA_STRING current.head.token then (current.String, 1)
  else (.value "", 0)

/-! ### The recursion check of `getParsableString` -/

/-- `#define getParsableStringRecursionsCheck() do{
if(uniqueID && uniqueID==temporaryID) { hasRecursion=true; return "recursion"; }
temporaryID = uniqueID; } while(0)`

`uniqueID` is the parameter of the enclosing `getParsableString`, `hasRecursion` its `bool &`
parameter and `v` the value it is called on. The result is the string the enclosing function
returns from inside the check (`none` when execution continues after the check), the value and
`hasRecursion` afterwards. -/
def getParsableStringRecursionsCheck (uniqueID : Nat) (v : CScriptVar) (hasRecursion : Bool) :
    Option String × CScriptVar × Bool :=
  if uniqueID != 0 && uniqueID == v.temporaryID then (some "recursion", v, true)
  else (none, { v with temporaryID := uniqueID }, hasRecursion)

/-- The default argument of the parameter `ID` in the declaration
`void keys(STRING_SET_t &Keys, bool OnlyEnumerable=true, uint32_t ID=0);`. -/
def keys_ID_default : Nat := 0

/-! ### The steps of `~CScopeControl` -/

/-- One iteration of the loop body of `~CScopeControl`:

    CScriptVarScopePtr parent = context->scopes.back()->getParent();
    if(parent) context->scopes.back() = parent; else context->scopes.pop_back();

`scopes.back()` of an empty vector is undefined: `none`. -/
def CScopeControl.undoStep : List CScriptVarScope → Option (List CScriptVarScope)
  | [] => none
  | back :: rest =>
    match back.getParent with
    | some parent => some (parent :: rest)
    | none => some rest

/-- A number of iterations of the loop body of `~CScopeControl`, one after the other. -/
def CScopeControl.undoSteps : Nat → List CScriptVarScope → Option (List CScriptVarScope)
  | 0, scopes => some scopes
  | n + 1, scopes => (CScopeControl.undoStep scopes).bind (CScopeControl.undoSteps n)

/-- The number of scopes on the parent chain of a scope, the scope itself included. -/
def CScriptVarScope.chainLength : CScriptVarScope → Nat
  | .Scope _ => 1
  | .ScopeFnc _ _ => 1
  | .ScopeLet _ Parent => Parent.chainLength + 1
  | .ScopeWith _ Parent _ => Parent.chainLength + 1

/-- The sum of the parent-chain lengths of the scopes of a stack: the number of iterations of the
destructor loop the stack can take before it is empty. -/
def stackDepth : List CScriptVarScope → Nat
  | [] => 0
  | back :: rest => back.chainLength + stackDepth rest

/-! ## Theorems -/

/-- C1: in both overloads of `CheckRightHandVar`, `throwError` is called if and only if `execute`
is true, the link is non-null, not owned, has no owner and has a non-empty name; when it is
called, it is called once, with `ReferenceError`, the message `name + " is not defined"` and the
position of the overload; when it is not called `execute` is unchanged. A link with the name
`TINYJS_TEMP_NAME` never raises. -/
theorem C1_CheckRightHandVar_raises_iff (throwErr : Bool → ThrowErrorCall → Bool)
    (prevPos Pos : ScriptTokenPosition) (execute : Bool) (link : Option CScriptVarLink) :
    (((CheckRightHandVar throwErr prevPos execute link).2 ≠ [] ↔
        (execute = true ∧ ∃ l, link = some l ∧ l.isOwned = false ∧ l.isOwner = false ∧
          l.getName ≠ "")) ∧
     ((CheckRightHandVar_Pos throwErr execute link Pos).2 ≠ [] ↔
        (execute = true ∧ ∃ l, link = some l ∧ l.isOwned = false ∧ l.isOwner = false ∧
          l.getName ≠ ""))) ∧
    (∀ l, link = some l →
      ((CheckRightHandVar throwErr prevPos execute link).2 ≠ [] →
        (CheckRightHandVar throwErr prevPos execute link).2 =
          [{ ErrorType := .ReferenceError, message := l.getName ++ " is not defined",
             Pos := prevPos }]) ∧
      ((CheckRightHandVar_Pos throwErr execute link Pos).2 ≠ [] →
        (CheckRightHandVar_Pos throwErr execute link Pos).2 =
          [{ ErrorType := .ReferenceError, message := l.getName ++ " is not defined",
             Pos := Pos }])) ∧
    (((CheckRightHandVar throwErr prevPos execute link).2 = [] →
        (CheckRightHandVar throwErr prevPos execute link).1 = execute) ∧
     ((CheckRightHandVar_Pos throwErr execute link Pos).2 = [] →
        (CheckRightHandVar_Pos throwErr execute link Pos).1 = execute)) ∧
    (∀ owner var flags,
      (CheckRightHandVar throwErr prevPos execute
        (some (CScriptVarLink.create owner var TINYJS_TEMP_NAME flags))).2 = [] ∧
      (CheckRightHandVar_Pos throwErr execute
        (some (CScriptVarLink.create owner var TINYJS_TEMP_NAME flags)) Pos).2 = []) := by
  refine ⟨⟨?_, ?_⟩, ?_, ⟨?_, ?_⟩, ?_⟩
  · cases link with
    | none => simp [CheckRightHandVar]
    | some l =>
      cases execute <;> cases h1 : l.isOwned <;> cases h2 : l.isOwner <;>
        by_cases h3 : l.getName = "" <;> simp [CheckRightHandVar, h1, h2, h3]
  · cases link with
    | none => simp [CheckRightHandVar_Pos]
    | some l =>
      cases execute <;> cases h1 : l.isOwned <;> cases h2 : l.isOwner <;>
        by_cases h3 : l.getName = "" <;> simp [CheckRightHandVar_Pos, h1, h2, h3]
  · intro l hl
    subst hl
    constructor
    · simp only [CheckRightHandVar]
      split <;> simp
    · simp only [CheckRightHandVar_Pos]
      split <;> simp
  · cases link with
    | none => simp [CheckRightHandVar]
    | some l =>
      simp only [CheckRightHandVar]
      split <;> simp
  · cases link with
    | none => simp [CheckRightHandVar_Pos]
    | some l =>
      simp only [CheckRightHandVar_Pos]
      split <;> simp
  · intro owner var flags
    simp [CheckRightHandVar, CheckRightHandVar_Pos, CScriptVarLink.create,
      CScriptVarLink.getName, TINYJS_TEMP_NAME]

/-- The bits set in a number below `2 ^ 5`, read off its five lowest bits. -/
theorem testBit_of_lt_32 (n i : Nat) (hn : n < 32) (hi : 5 ≤ i) : n.testBit i = false := by
  apply Nat.testBit_lt_two_pow
  calc n < 2 ^ 5 := by omega
    _ ≤ 2 ^ i := Nat.pow_le_pow_right (by decide) hi

/-- C3: the three link-flag defaults. `SCRIPTVARLINK_DEFAULT` has exactly the bits of writable,
deletable and enumerable; `SCRIPTVARLINK_NATIVEDEFAULT` has exactly the writable bit;
`SCRIPTVARLINK_VARDEFAULT` has exactly the bits of writable and enumerable (so it is not
deletable). A link created with one of them answers the five flag predicates accordingly, and
none of the three is owned or hidden. -/
theorem C3_link_flag_defaults :
    (∀ i, SCRIPTVARLINK_DEFAULT.testBit i = true ↔ (i = 1 ∨ i = 2 ∨ i = 3)) ∧
    (∀ i, SCRIPTVARLINK_NATIVEDEFAULT.testBit i = true ↔ i = 1) ∧
    (∀ i, SCRIPTVARLINK_VARDEFAULT.testBit i = true ↔ (i = 1 ∨ i = 3)) ∧
    (∀ owner var name,
      let l := CScriptVarLink.create owner var name SCRIPTVARLINK_DEFAULT
      l.isWritable = true ∧ l.isDeletable = true ∧ l.isEnumerable = true ∧
        l.isOwned = false ∧ l.isHidden = false) ∧
    (∀ owner var name,
      let l := CScriptVarLink.create owner var name SCRIPTVARLINK_NATIVEDEFAULT
      l.isWritable = true ∧ l.isDeletable = false ∧ l.isEnumerable = false ∧
        l.isOwned = false ∧ l.isHidden = false) ∧
    (∀ owner var name,
      let l := CScriptVarLink.create owner var name SCRIPTVARLINK_VARDEFAULT
      l.isWritable = true ∧ l.isDeletable = false ∧ l.isEnumerable = true ∧
        l.isOwned = false ∧ l.isHidden = false) := by
  have hd : SCRIPTVARLINK_DEFAULT = 14 := by decide
  have hn : SCRIPTVARLINK_NATIVEDEFAULT = 2 := by decide
  have hv : SCRIPTVARLINK_VARDEFAULT = 10 := by decide
  refine ⟨?_, ?_, ?_, ?_, ?_, ?_⟩
  · intro i
    rw [hd]
    by_cases hi : 5 ≤ i
    · rw [testBit_of_lt_32 14 i (by decide) hi]
      constructor
      · intro h; cases h
      · intro h; omega
    · have : i = 0 ∨ i = 1 ∨ i = 2 ∨ i = 3 ∨ i = 4 := by omega
      rcases this with h | h | h | h | h <;> subst h <;> decide
  · intro i
    rw [hn]
    by_cases hi : 5 ≤ i
    · rw [testBit_of_lt_32 2 i (by decide) hi]
      constructor
      · intro h; cases h
      · intro h; omega
    · have : i = 0 ∨ i = 1 ∨ i = 2 ∨ i = 3 ∨ i = 4 := by omega
      rcases this with h | h | h | h | h <;> subst h <;> decide
  · intro i
    rw [hv]
    by_cases hi : 5 ≤ i
    · rw [testBit_of_lt_32 10 i (by decide) hi]
      constructor
      · intro h; cases h
      · intro h; omega
    · have : i = 0 ∨ i = 1 ∨ i = 2 ∨ i = 3 ∨ i = 4 := by omega
      rcases this with h | h | h | h | h <;> subst h <;> decide
  · intro owner var name
    simp only [CScriptVarLink.create, CScriptVarLink.isWritable, CScriptVarLink.isDeletable,
      CScriptVarLink.isEnumerable, CScriptVarLink.isOwned, CScriptVarLink.isHidden]
    decide
  · intro owner var name
    simp only [CScriptVarLink.create, CScriptVarLink.isWritable, CScriptVarLink.isDeletable,
      CScriptVarLink.isEnumerable, CScriptVarLink.isOwned, CScriptVarLink.isHidden]
    decide
  · intro owner var name
    simp only [CScriptVarLink.create, CScriptVarLink.isWritable, CScriptVarLink.isDeletable,
      CScriptVarLink.isEnumerable, CScriptVarLink.isOwned, CScriptVarLink.isHidden]
    decide

/-- C5: whatever the base constructor `CScriptVar(Context, Prototype)` left and whatever
`fakeObject` held before, a value built by `CScriptVarPrimitive(Context, Prototype)` is not
extensible and not a fake object, and the other members of the base are as the base constructor
left them. -/
theorem C5_primitive_not_extensible_not_fake (base : CScriptVar) (uninit : Bool) :
    (CScriptVarPrimitive.construct base uninit).isExtensible = false ∧
    (CScriptVarPrimitive.construct base uninit).fakeObject = false ∧
    (CScriptVarPrimitive.construct base uninit).base.refs = base.refs ∧
    (CScriptVarPrimitive.construct base uninit).base.temporaryID = base.temporaryID := by
  refine ⟨?_, ?_, ?_, ?_⟩ <;> rfl

/-- C6: `constScriptVar` returns a reference to the context member of the constant asked for and
leaves the context as it was, so a second call with the same argument returns the same reference.
For a `bool` the reference is `constTrue` exactly when the argument is true and `constFalse`
otherwise; for an `Infinity` it is `constInfinityNegative` exactly when `Sig() < 0` and
`constInfinityPositive` otherwise, also for `Sig() == 0`. -/
theorem C6_constScriptVar_singletons (c : CTinyJS) (arg : ConstArg) :
    (c.constScriptVar arg).2 = c ∧
    ((c.constScriptVar arg).2.constScriptVar arg).1 = (c.constScriptVar arg).1 ∧
    c.read (c.constScriptVar .Undefined).1 = c.constUndefined ∧
    c.read (c.constScriptVar .Null).1 = c.constNull ∧
    c.read (c.constScriptVar .NaN).1 = c.constNaN ∧
    c.read (c.constScriptVar .Zero).1 = c.constZero ∧
    c.read (c.constScriptVar .One).1 = c.constOne ∧
    (∀ Val : Bool,
      ((c.constScriptVar (.bool Val)).1 = .constTrue ↔ Val = true) ∧
      ((c.constScriptVar (.bool Val)).1 = .constFalse ↔ Val = false) ∧
      c.read (c.constScriptVar (.bool Val)).1 = (if Val then c.constTrue else c.constFalse)) ∧
    (∀ t : Infinity,
      ((c.constScriptVar (.Infinity t)).1 = .constInfinityNegative ↔ t.Sig < 0) ∧
      ((c.constScriptVar (.Infinity t)).1 = .constInfinityPositive ↔ 0 ≤ t.Sig) ∧
      c.read (c.constScriptVar (.Infinity t)).1 =
        (if t.Sig < 0 then c.constInfinityNegative else c.constInfinityPositive)) ∧
    (c.constScriptVar (.Infinity { sig := 0 })).1 = .constInfinityPositive := by
  refine ⟨?_, ?_, rfl, rfl, rfl, rfl, rfl, ?_, ?_, rfl⟩
  · cases arg <;> rfl
  · cases arg <;> rfl
  · intro Val
    cases Val <;> simp [CTinyJS.constScriptVar, CTinyJS.read]
  · intro t
    by_cases h : t.Sig < 0
    · simp [CTinyJS.constScriptVar, CTinyJS.read, h]
    · simp [CTinyJS.constScriptVar, CTinyJS.read, h]
      omega

/-- The values of the enumerators that bound the payload tests and the equality span. -/
theorem LEX_TYPES_bounds :
    LEX_EQUAL = 256 ∧ LEX_TYPEEQUAL = 257 ∧ LEX_NEQUAL = 258 ∧ LEX_NTYPEEQUAL = 259 ∧
    LEX_LEQUAL = 260 ∧ LEX_GEQUAL = 261 ∧
    LEX_TOKEN_STRING_BEGIN = 281 ∧ LEX_TOKEN_STRING_END = 286 ∧ LEX_FLOAT = 287 ∧
    LEX_TOKEN_FUNCTION_BEGIN = 317 ∧ LEX_TOKEN_FUNCTION_END = 323 ∧
    LEX_T_FORWARD = 325 ∧ LEX_T_DESTRUCTURING_VAR = 326 ∧ LEX_T_OBJECT_LITERAL = 327 := by
  decide

/-- C7: for every token kind (every natural number, so every 16-bit kind), exactly one of the
seven payload tests `LEX_TOKEN_DATA_SIMPLE`, `_STRING`, `_FLOAT`, `_FUNCTION`, `_OBJECT_LITERAL`,
`_DESTRUCTURING_VAR`, `_FORWARDER` holds; so for every token exactly one of the assertions of
`Int()`, `String()`, `Float()`, `Fnc()`, `Object()`, `DestructuringVar()`, `Forwarder()`
passes. -/
theorem C7_exactly_one_payload_class :
    (∀ k : Nat, (LEX_TOKEN_DATA_tests k).count true = 1) ∧
    (∀ t : CScriptToken, t.accessor_ASSERTs.count true = 1) := by
  obtain ⟨-, -, -, -, -, -, h1, h2, h3, h4, h5, h6, h7, h8⟩ := LEX_TYPES_bounds
  have key : ∀ k : Nat, (LEX_TOKEN_DATA_tests k).count true = 1 := by
    intro k
    simp only [LEX_TOKEN_DATA_tests, LEX_TOKEN_DATA_SIMPLE, LEX_TOKEN_DATA_STRING,
      LEX_TOKEN_DATA_FLOAT, LEX_TOKEN_DATA_FUNCTION, LEX_TOKEN_DATA_OBJECT_LITERAL,
      LEX_TOKEN_DATA_DESTRUCTURING_VAR, LEX_TOKEN_DATA_FORWARDER, h1, h2, h3, h4, h5, h6, h7, h8]
    cases a1 : decide (281 ≤ k) <;> cases a2 : decide (k ≤ 286) <;> cases a3 : (k == 287) <;>
      cases a4 : decide (317 ≤ k) <;> cases a5 : decide (k ≤ 323) <;>
      cases a6 : (k == 325) <;> cases a7 : (k == 326) <;> cases a8 : (k == 327) <;>
      first
        | rfl
        | (simp at a1 a2 a3 a4 a5 a6 a7 a8; omega)
  refine ⟨key, ?_⟩
  intro t
  exact key t.token

/-- C8: a token kind lies in the span `LEX_RELATIONS_1_BEGIN .. LEX_RELATIONS_1_END` exactly when
it is one of `LEX_EQUAL`, `LEX_TYPEEQUAL`, `LEX_NEQUAL`, `LEX_NTYPEEQUAL`; `LEX_LEQUAL`,
`LEX_GEQUAL` and every single-character token (a kind below 256) lie outside. -/
theorem C8_relations_1_span :
    (∀ k : Nat, (LEX_RELATIONS_1_BEGIN ≤ k ∧ k ≤ LEX_RELATIONS_1_END) ↔
      (k = LEX_EQUAL ∨ k = LEX_TYPEEQUAL ∨ k = LEX_NEQUAL ∨ k = LEX_NTYPEEQUAL)) ∧
    ¬ (LEX_RELATIONS_1_BEGIN ≤ LEX_LEQUAL ∧ LEX_LEQUAL ≤ LEX_RELATIONS_1_END) ∧
    ¬ (LEX_RELATIONS_1_BEGIN ≤ LEX_GEQUAL ∧ LEX_GEQUAL ≤ LEX_RELATIONS_1_END) ∧
    (∀ k : Nat, k < 256 → ¬ (LEX_RELATIONS_1_BEGIN ≤ k ∧ k ≤ LEX_RELATIONS_1_END)) ∧
    ¬ (LEX_RELATIONS_1_BEGIN ≤ ('<').toNat ∧ ('<').toNat ≤ LEX_RELATIONS_1_END) ∧
    ¬ (LEX_RELATIONS_1_BEGIN ≤ ('>').toNat ∧ ('>').toNat ≤ LEX_RELATIONS_1_END) := by
  obtain ⟨h1, h2, h3, h4, h5, h6, -⟩ := LEX_TYPES_bounds
  have hb : LEX_RELATIONS_1_BEGIN = 256 := h1
  have he : LEX_RELATIONS_1_END = 259 := h4
  rw [hb, he, h1, h2, h3, h4, h5, h6]
  refine ⟨?_, ?_, ?_, ?_, ?_, ?_⟩
  · intro k
    omega
  · omega
  · omega
  · intro k hk
    omega
  · decide
  · decide

/-- C9: `ERROR_TYPES` has exactly the six enumerators `Error`, `EvalError`, `RangeError`,
`ReferenceError`, `SyntaxError`, `TypeError`, with the pairwise distinct values 0 to 5;
`ERROR_COUNT` is 6; and for every `ERROR_TYPES` value the index `getErrorPrototype` uses is inside
the array `errorPrototypes`, so the call returns that array element. -/
theorem C9_error_types :
    ERROR_TYPES.all =
      [.Error, .EvalError, .RangeError, .ReferenceError, .SyntaxError, .TypeError] ∧
    (∀ t : ERROR_TYPES, t ∈ ERROR_TYPES.all) ∧
    ERROR_TYPES.all.length = 6 ∧
    ERROR_TYPES.all.map ERROR_TYPES.val = [0, 1, 2, 3, 4, 5] ∧
    (ERROR_TYPES.all.map ERROR_TYPES.val).Nodup ∧
    ERROR_COUNT = 6 ∧
    (∀ t : ERROR_TYPES, t.val < ERROR_COUNT) ∧
    (∀ (c : CTinyJS) (t : ERROR_TYPES),
      ∃ h : t.val < ERROR_COUNT, c.getErrorPrototype t = some (c.errorPrototypes ⟨t.val, h⟩)) := by
  have hb : ∀ t : ERROR_TYPES, t.val < ERROR_COUNT := by
    intro t
    cases t <;> decide
  refine ⟨rfl, ?_, rfl, rfl, by decide, rfl, hb, ?_⟩
  · intro t
    cases t <;> decide
  · intro c t
    refine ⟨hb t, ?_⟩
    simp [CTinyJS.getErrorPrototype, hb t]

/-- C10 as stated fails: no `TINYJS_*_VAR` or `TINYJS_*_CLASS` constant of the header has the
value `constructor`. -/
theorem C10_constructor_not_a_name_constant : ¬ ("constructor" ∈ TINYJS_NAME_CONSTANTS) := by
  decide

/-- C10, amended: each of `__proto__`, `prototype`, `__function_closure__`, `__scope_parent__`,
`__scope_with__`, `__accessor_get__`, `__accessor_set__`, `arguments` and `return` is the value
of one of the `TINYJS_*_VAR` / `TINYJS_*_CLASS` constants, `constructor` is the value of none of
them, and the values of these constants are pairwise distinct and non-empty. -/
theorem C10_name_constants :
    "__proto__" = TINYJS___PROTO___VAR ∧ "prototype" = TINYJS_PROTOTYPE_CLASS ∧
    "__function_closure__" = TINYJS_FUNCTION_CLOSURE_VAR ∧
    "__scope_parent__" = TINYJS_SCOPE_PARENT_VAR ∧ "__scope_with__" = TINYJS_SCOPE_WITH_VAR ∧
    "__accessor_get__" = TINYJS_ACCESSOR_GET_VAR ∧ "__accessor_set__" = TINYJS_ACCESSOR_SET_VAR ∧
    "arguments" = TINYJS_ARGUMENTS_VAR ∧ "return" = TINYJS_RETURN_VAR ∧
    (∀ s ∈ ["__proto__", "prototype", "__function_closure__", "__scope_parent__",
        "__scope_with__", "__accessor_get__", "__accessor_set__", "arguments", "return"],
      s ∈ TINYJS_NAME_CONSTANTS) ∧
    ¬ ("constructor" ∈ TINYJS_NAME_CONSTANTS) ∧
    TINYJS_NAME_CONSTANTS.Nodup ∧
    (∀ s ∈ TINYJS_NAME_CONSTANTS, s ≠ "") := by
  refine ⟨rfl, rfl, rfl, rfl, rfl, rfl, rfl, rfl, rfl, ?_, ?_, ?_, ?_⟩ <;> decide

/-- While the counter stays below `2 ^ 32`, the values successive calls of `getUniqueID` return
are increasing, all above the counter the calls started from, and all 32-bit values. -/
theorem getUniqueID_calls_increasing (n : Nat) :
    ∀ c : CTinyJS, c.uniqueID + n < 2 ^ 32 →
      List.Pairwise (fun a b => a < b) (c.getUniqueID_calls n) ∧
      ∀ r ∈ c.getUniqueID_calls n, c.uniqueID < r ∧ r < 2 ^ 32 := by
  induction n with
  | zero =>
    intro c _
    simp [CTinyJS.getUniqueID_calls]
  | succ n ih =>
    intro c hc
    have hr : (c.getUniqueID).1 = c.uniqueID + 1 := by
      simp only [CTinyJS.getUniqueID]
      exact Nat.mod_eq_of_lt (by omega)
    have hu : (c.getUniqueID).2.uniqueID = c.uniqueID + 1 := by
      simp only [CTinyJS.getUniqueID]
      exact Nat.mod_eq_of_lt (by omega)
    obtain ⟨ih1, ih2⟩ := ih (c.getUniqueID).2 (by rw [hu]; omega)
    simp only [CTinyJS.getUniqueID_calls, List.pairwise_cons, List.mem_cons]
    refine ⟨⟨?_, ih1⟩, ?_⟩
    · intro r hmem
      have := ih2 r hmem
      rw [hu] at this
      rw [hr]
      omega
    · intro r hmem
      rcases hmem with h | h
      · rw [h, hr]
        omega
      · have := ih2 r h
        rw [hu] at this
        omega

/-- C4 as stated fails: from the counter state `2 ^ 32 - 2` the first call of `getUniqueID`
returns `2 ^ 32 - 1` and the second returns 0, which is not greater. -/
theorem C4_getUniqueID_wraps :
    (CTinyJS.sample [] (2 ^ 32 - 2)).getUniqueID_calls 2 = [4294967295, 0] ∧
    ¬ List.Pairwise (fun a b => a < b) ((CTinyJS.sample [] (2 ^ 32 - 2)).getUniqueID_calls 2) := by
  have h : (CTinyJS.sample [] (2 ^ 32 - 2)).getUniqueID_calls 2 = [4294967295, 0] := by
    simp [CTinyJS.getUniqueID_calls, CTinyJS.getUniqueID, CTinyJS.sample]
  refine ⟨h, ?_⟩
  rw [h]
  simp

/-- C4, amended: as long as the counter has not passed `2 ^ 32 - 1` (the counter before the
calls plus the number of calls is below `2 ^ 32`), every call of `getUniqueID` returns a 32-bit
value strictly greater than the value returned by every earlier call on the same context. -/
theorem C4_getUniqueID_increasing_below_wrap (c : CTinyJS) (n : Nat)
    (h : c.uniqueID + n < 2 ^ 32) :
    List.Pairwise (fun a b => a < b) (c.getUniqueID_calls n) ∧
    (∀ r ∈ c.getUniqueID_calls n, r < 2 ^ 32) ∧
    (c.getUniqueID_calls n).length = n := by
  obtain ⟨h1, h2⟩ := getUniqueID_calls_increasing n c h
  refine ⟨h1, fun r hr => (h2 r hr).2, ?_⟩
  clear h h1 h2
  induction n generalizing c with
  | zero => rfl
  | succ n ih => simp [CTinyJS.getUniqueID_calls, ih]

/-- C4, amended, at the counter 5 and three calls, which return 6, 7 and 8. -/
theorem C4_getUniqueID_increasing_below_wrap_witness :
    (CTinyJS.sample [] 5).getUniqueID_calls 3 = [6, 7, 8] ∧
    (List.Pairwise (fun a b => a < b) ((CTinyJS.sample [] 5).getUniqueID_calls 3) ∧
      (∀ r ∈ (CTinyJS.sample [] 5).getUniqueID_calls 3, r < 2 ^ 32) ∧
      ((CTinyJS.sample [] 5).getUniqueID_calls 3).length = 3) :=
  ⟨by simp [CTinyJS.getUniqueID_calls, CTinyJS.getUniqueID, CTinyJS.sample],
   C4_getUniqueID_increasing_below_wrap (CTinyJS.sample [] 5) 3 (by decide)⟩

/-- One iteration of the destructor loop undoes an `addFncScope` of a scope without parent. -/
theorem destructorLoop_undo_fnc (count : Nat) (Scope : CScriptVarScope)
    (scopes : List CScriptVarScope) (h : Scope.getParent = none) :
    CScopeControl.destructorLoop (count + 1) (Scope :: scopes) =
      CScopeControl.destructorLoop count scopes := by
  simp [CScopeControl.destructorLoop, h]

/-- One iteration of the destructor loop undoes an `addLetScope`. -/
theorem destructorLoop_undo_let (count : Nat) (addr : VarAddr) (back : CScriptVarScope)
    (rest : List CScriptVarScope) :
    CScopeControl.destructorLoop (count + 1) (.ScopeLet addr back :: rest) =
      CScopeControl.destructorLoop count (back :: rest) := by
  simp [CScopeControl.destructorLoop, CScriptVarScope.getParent]

/-- One iteration of the destructor loop undoes an `addWithScope`. -/
theorem destructorLoop_undo_with (count : Nat) (addr : VarAddr) (back : CScriptVarScope)
    (rest : List CScriptVarScope) (With : CScriptVarPtr) :
    CScopeControl.destructorLoop (count + 1) (.ScopeWith addr back With :: rest) =
      CScopeControl.destructorLoop count (back :: rest) := by
  simp [CScopeControl.destructorLoop, CScriptVarScope.getParent]

/-- A sequence of calls that hands only parentless scopes to `addFncScope` and never reads the
top of an empty stack runs to the end, and the destructor loop of the control it leaves does what
the destructor loop of the control before the calls does; no other member of the context
changes. -/
theorem calls_then_destructorLoop (cs : List ScopeCall) :
    ∀ sc : CScopeControl,
      (sc.context.scopes = [] → ScopeCall.startsWithFnc cs = true) →
      (∀ S ∈ ScopeCall.fncScopes cs, S.getParent = none) →
      ∃ sc1, sc.calls cs = some sc1 ∧
        CScopeControl.destructorLoop sc1.count sc1.context.scopes =
          CScopeControl.destructorLoop sc.count sc.context.scopes ∧
        ∀ x, ({ sc1.context with scopes := x } : CTinyJS) = { sc.context with scopes := x } := by
  induction cs with
  | nil =>
    intro sc _ _
    exact ⟨sc, rfl, rfl, fun _ => rfl⟩
  | cons c cs ih =>
    intro sc hne hf
    cases c with
    | addFncScope Scope =>
      have hS : Scope.getParent = none := hf Scope (by simp [ScopeCall.fncScopes])
      obtain ⟨sc1, e1, e2, e3⟩ := ih (sc.addFncScope Scope)
        (by simp [CScopeControl.addFncScope])
        (fun S hmem => hf S (by simp [ScopeCall.fncScopes, hmem]))
      refine ⟨sc1, ?_, ?_, ?_⟩
      · simp [CScopeControl.calls, CScopeControl.call, e1]
      · rw [e2]
        exact destructorLoop_undo_fnc sc.count Scope sc.context.scopes hS
      · intro x
        rw [e3 x]
        rfl
    | addLetScope addr =>
      cases hs : sc.context.scopes with
      | nil => simp [ScopeCall.startsWithFnc] at hne; exact absurd hs hne
      | cons back rest =>
        obtain ⟨sc1, e1, e2, e3⟩ := ih
          { context := { sc.context with scopes := .ScopeLet addr back :: rest },
            count := sc.count + 1 }
          (by simp)
          (fun S hmem => hf S (by simpa [ScopeCall.fncScopes] using hmem))
        refine ⟨sc1, ?_, ?_, ?_⟩
        · simp [CScopeControl.calls, CScopeControl.call, CScopeControl.addLetScope, hs, e1]
        · rw [e2]
          exact destructorLoop_undo_let sc.count addr back rest
        · intro x
          rw [e3 x]
    | addWithScope addr With =>
      cases hs : sc.context.scopes with
      | nil => simp [ScopeCall.startsWithFnc] at hne; exact absurd hs hne
      | cons back rest =>
        obtain ⟨sc1, e1, e2, e3⟩ := ih
          { context := { sc.context with scopes := .ScopeWith addr back With :: rest },
            count := sc.count + 1 }
          (by simp)
          (fun S hmem => hf S (by simpa [ScopeCall.fncScopes] using hmem))
        refine ⟨sc1, ?_, ?_, ?_⟩
        · simp [CScopeControl.calls, CScopeControl.call, CScopeControl.addWithScope, hs, e1]
        · rw [e2]
          exact destructorLoop_undo_with sc.count addr back rest With
        · intro x
          rw [e3 x]

/-- C2 as stated fails. On the stack holding only the root scope, `addFncScope` of a let scope
pushes that scope; its `getParent` is not null, so the destructor replaces it by its parent
instead of popping it and leaves a stack of two entries. And on an empty stack `addLetScope`
reads `scopes.back()` of an empty vector, so nothing is guaranteed. -/
theorem C2_addFncScope_of_let_scope_not_popped :
    (CScopeControl.lifetime (CTinyJS.sample [.Scope 100] 0)
        [.addFncScope (.ScopeLet 101 (.Scope 100))]).map CTinyJS.scopes =
      some [.Scope 100, .Scope 100] ∧
    (CScopeControl.lifetime (CTinyJS.sample [.Scope 100] 0)
        [.addFncScope (.ScopeLet 101 (.Scope 100))]).map CTinyJS.scopes ≠
      some (CTinyJS.sample [.Scope 100] 0).scopes ∧
    (CScopeControl.lifetime (CTinyJS.sample [] 0) [.addLetScope 101]).map CTinyJS.scopes =
      none := by
  refine ⟨?_, ?_, ?_⟩ <;> decide

/-- C2, amended: for every scope stack and every sequence of `addFncScope`, `addLetScope` and
`addWithScope` calls made through one `CScopeControl` in which every scope handed to
`addFncScope` has a null `getParent` (a root or function scope) and in which `addLetScope` or
`addWithScope` is not the first call on an empty stack, the calls and the destructor run to the
end and the destructor leaves the context, and so its `scopes` stack, as it was when the
`CScopeControl` was constructed. -/
theorem C2_scopes_restored (Context : CTinyJS) (cs : List ScopeCall)
    (hfnc : ∀ S ∈ ScopeCall.fncScopes cs, S.getParent = none)
    (hback : Context.scopes = [] → ScopeCall.startsWithFnc cs = true) :
    CScopeControl.lifetime Context cs = some Context ∧
    (CScopeControl.lifetime Context cs).map CTinyJS.scopes = some Context.scopes := by
  obtain ⟨sc1, e1, e2, e3⟩ :=
    calls_then_destructorLoop cs (CScopeControl.construct Context) hback hfnc
  have h : CScopeControl.lifetime Context cs = some Context := by
    simp only [CScopeControl.lifetime, e1, Option.some_bind, CScopeControl.destructor, e2]
    simp only [CScopeControl.construct, CScopeControl.destructorLoop, Option.map_some']
    rw [e3 Context.scopes]
    rfl
  exact ⟨h, by rw [h]; rfl⟩

/-- C2, amended, on the stack holding a function scope (top) over the root scope, with the calls
`addLetScope`, `addFncScope` of a function scope, `addWithScope`, `addLetScope`. -/
theorem C2_scopes_restored_witness :
    (∀ S ∈ ScopeCall.fncScopes
        [.addLetScope 102, .addFncScope (.ScopeFnc 103 (some 101)), .addWithScope 104 (some 7),
         .addLetScope 105],
      S.getParent = none) ∧
    (CScopeControl.lifetime (CTinyJS.sample [.ScopeFnc 101 (some 100), .Scope 100] 0)
        [.addLetScope 102, .addFncScope (.ScopeFnc 103 (some 101)), .addWithScope 104 (some 7),
         .addLetScope 105] =
      some (CTinyJS.sample [.ScopeFnc 101 (some 100), .Scope 100] 0) ∧
    (CScopeControl.lifetime (CTinyJS.sample [.ScopeFnc 101 (some 100), .Scope 100] 0)
        [.addLetScope 102, .addFncScope (.ScopeFnc 103 (some 101)), .addWithScope 104 (some 7),
         .addLetScope 105]).map CTinyJS.scopes =
      some [.ScopeFnc 101 (some 100), .Scope 100]) :=
  ⟨by decide,
   C2_scopes_restored (CTinyJS.sample [.ScopeFnc 101 (some 100), .Scope 100] 0)
     [.addLetScope 102, .addFncScope (.ScopeFnc 103 (some 101)), .addWithScope 104 (some 7),
      .addLetScope 105]
     (by decide) (by simp [CTinyJS.sample])⟩

/-- The values of the enumerators that bound the string, loop and function spans. -/
theorem LEX_TYPES_span_values :
    (LEX_ID = 281 ∧ LEX_STR = 282 ∧ LEX_REGEXP = 283 ∧ LEX_T_LABEL = 284 ∧
      LEX_T_DUMMY_LABEL = 285 ∧ LEX_T_LOOP_LABEL = 286) ∧
    (LEX_R_IF = 288 ∧ LEX_R_DO = 290 ∧ LEX_R_WHILE = 291 ∧ LEX_R_FOR = 292 ∧
      LEX_T_FOR_IN = 293 ∧ LEX_T_FOR_EACH_IN = 294 ∧ LEX_R_IN = 295 ∧ LEX_R_DEFAULT = 316) ∧
    (LEX_R_FUNCTION_PLACEHOLDER = 317 ∧ LEX_R_FUNCTION = 318 ∧ LEX_T_FUNCTION_OPERATOR = 319 ∧
      LEX_T_FUNCTION_SHORT = 320 ∧ LEX_T_FUNCTION_OPERATOR_SHORT = 321 ∧ LEX_T_GET = 322 ∧
      LEX_T_SET = 323 ∧ LEX_T_SKIP = 324 ∧ LEX_T_FORWARD = 325) := by
  decide

/-- C11: a token kind passes `LEX_TOKEN_DATA_STRING` exactly when it is one of `LEX_ID`,
`LEX_STR`, `LEX_REGEXP`, `LEX_T_LABEL`, `LEX_T_DUMMY_LABEL`, `LEX_T_LOOP_LABEL`. -/
theorem C11_string_payload_kinds (k : Nat) :
    LEX_TOKEN_DATA_STRING k = true ↔
      (k = LEX_ID ∨ k = LEX_STR ∨ k = LEX_REGEXP ∨ k = LEX_T_LABEL ∨ k = LEX_T_DUMMY_LABEL ∨
        k = LEX_T_LOOP_LABEL) := by
  obtain ⟨⟨h1, h2, h3, h4, h5, h6⟩, -, -⟩ := LEX_TYPES_span_values
  have hb : LEX_TOKEN_STRING_BEGIN = 281 := h1
  have he : LEX_TOKEN_STRING_END = 286 := h6
  simp only [LEX_TOKEN_DATA_STRING, hb, he, h1, h2, h3, h4, h5, h6, Bool.and_eq_true,
    decide_eq_true_eq]
  omega

/-- C12: a token kind passes `LEX_TOKEN_DATA_FUNCTION` exactly when it is one of
`LEX_R_FUNCTION_PLACEHOLDER`, `LEX_R_FUNCTION`, `LEX_T_FUNCTION_OPERATOR`,
`LEX_T_FUNCTION_SHORT`, `LEX_T_FUNCTION_OPERATOR_SHORT`, `LEX_T_GET`, `LEX_T_SET`. So the
assertion of `Fnc()` passes for a `LEX_T_GET` and for a `LEX_T_SET` token and fails for a
`LEX_T_SKIP` token, a `LEX_T_FORWARD` token and a token of any kind below
`LEX_R_FUNCTION_PLACEHOLDER`, among them all reserved words from `LEX_R_IF` to
`LEX_R_DEFAULT`. -/
theorem C12_function_payload_kinds :
    (∀ k : Nat, LEX_TOKEN_DATA_FUNCTION k = true ↔
      (k = LEX_R_FUNCTION_PLACEHOLDER ∨ k = LEX_R_FUNCTION ∨ k = LEX_T_FUNCTION_OPERATOR ∨
        k = LEX_T_FUNCTION_SHORT ∨ k = LEX_T_FUNCTION_OPERATOR_SHORT ∨ k = LEX_T_GET ∨
        k = LEX_T_SET)) ∧
    (∀ line column : Nat,
      ({ line := line, column := column, token := LEX_T_GET } : CScriptToken).Fnc_ASSERT = true ∧
      ({ line := line, column := column, token := LEX_T_SET } : CScriptToken).Fnc_ASSERT = true ∧
      ({ line := line, column := column, token := LEX_T_SKIP } : CScriptToken).Fnc_ASSERT =
        false ∧
      ({ line := line, column := column, token := LEX_T_FORWARD } : CScriptToken).Fnc_ASSERT =
        false) ∧
    (∀ line column k : Nat, k < LEX_R_FUNCTION_PLACEHOLDER →
      ({ line := line, column := column, token := k } : CScriptToken).Fnc_ASSERT = false) ∧
    (LEX_R_IF < LEX_R_FUNCTION_PLACEHOLDER ∧ LEX_R_DEFAULT + 1 = LEX_R_FUNCTION_PLACEHOLDER) := by
  obtain ⟨-, ⟨hif, -, -, -, -, -, -, hdef⟩, h1, h2, h3, h4, h5, h6, h7, h8, h9⟩ :=
    LEX_TYPES_span_values
  have hb : LEX_TOKEN_FUNCTION_BEGIN = 317 := h1
  have he : LEX_TOKEN_FUNCTION_END = 323 := h7
  refine ⟨?_, ?_, ?_, ?_⟩
  · intro k
    simp only [LEX_TOKEN_DATA_FUNCTION, hb, he, h1, h2, h3, h4, h5, h6, h7, Bool.and_eq_true,
      decide_eq_true_eq]
    omega
  · intro line column
    simp only [CScriptToken.Fnc_ASSERT, LEX_TOKEN_DATA_FUNCTION, hb, he, h6, h7, h8, h9]
    decide
  · intro line column k hk
    rw [h1] at hk
    simp only [CScriptToken.Fnc_ASSERT, LEX_TOKEN_DATA_FUNCTION, hb, he]
    have : ¬ (317 ≤ k) := by omega
    simp [this]
  · rw [hif, hdef, h1]
    decide

/-- The values of all enumerators of `LEX_TYPES`. -/
theorem LEX_TYPES_all_values :
    LEX_TYPES_all = 0 :: (List.range 72).map (fun i => 256 + i) := by
  decide

/-- C13: every enumerator of `LEX_TYPES` other than `LEX_EOF` has a value from 256 to 65535, the
enumerators are pairwise distinct, and every one of them (also `LEX_EOF`) stored in the
`uint16_t` member `token` reads back as the same kind. -/
theorem C13_token_kinds_fit_uint16 :
    LEX_TYPES_all.length = 73 ∧
    (∀ v ∈ LEX_TYPES_all, v ≠ LEX_EOF → 256 ≤ v ∧ v ≤ 65535) ∧
    LEX_TYPES_all.Nodup ∧
    (∀ v ∈ LEX_TYPES_all, ∀ t : CScriptToken, (t.store_token v).token = v) := by
  have hall := LEX_TYPES_all_values
  have hmem : ∀ v ∈ LEX_TYPES_all, v = 0 ∨ (256 ≤ v ∧ v < 328) := by
    intro v hv
    rw [hall] at hv
    simp only [List.mem_cons, List.mem_map, List.mem_range] at hv
    rcases hv with h | ⟨i, hi, rfl⟩
    · exact Or.inl h
    · exact Or.inr (by omega)
  refine ⟨by rw [hall]; rfl, ?_, ?_, ?_⟩
  · intro v hv hne
    have h0 : LEX_EOF = 0 := rfl
    rcases hmem v hv with h | h
    · exact absurd (h.trans h0.symm) hne
    · omega
  · rw [hall]
    refine List.nodup_cons.mpr ⟨?_, ?_⟩
    · simp
    · exact (List.nodup_range 72).map (fun a b h => by simpa using h)
  · intro v hv t
    simp only [CScriptToken.store_token, uint16_of]
    rcases hmem v hv with h | h
    · rw [h]
      rfl
    · exact Nat.mod_eq_of_lt (by omega)

/-- C17: `LEX_R_FOR`, `LEX_T_FOR_IN` and `LEX_T_FOR_EACH_IN` are pairwise distinct, and a token
kind lies in the span `LEX_TOKEN_LOOP_BEGIN .. LEX_TOKEN_LOOP_END` exactly when it is one of
`LEX_R_DO`, `LEX_R_WHILE`, `LEX_R_FOR`, `LEX_T_FOR_IN`, `LEX_T_FOR_EACH_IN`; `LEX_R_IN` lies
outside. -/
theorem C17_loop_span :
    (LEX_R_FOR ≠ LEX_T_FOR_IN ∧ LEX_R_FOR ≠ LEX_T_FOR_EACH_IN ∧
      LEX_T_FOR_IN ≠ LEX_T_FOR_EACH_IN) ∧
    (∀ k : Nat, (LEX_TOKEN_LOOP_BEGIN ≤ k ∧ k ≤ LEX_TOKEN_LOOP_END) ↔
      (k = LEX_R_DO ∨ k = LEX_R_WHILE ∨ k = LEX_R_FOR ∨ k = LEX_T_FOR_IN ∨
        k = LEX_T_FOR_EACH_IN)) ∧
    ¬ (LEX_TOKEN_LOOP_BEGIN ≤ LEX_R_IN ∧ LEX_R_IN ≤ LEX_TOKEN_LOOP_END) := by
  obtain ⟨-, ⟨-, h1, h2, h3, h4, h5, h6, -⟩, -⟩ := LEX_TYPES_span_values
  have hb : LEX_TOKEN_LOOP_BEGIN = 290 := h1
  have he : LEX_TOKEN_LOOP_END = 294 := h5
  rw [hb, he, h1, h2, h3, h4, h5, h6]
  refine ⟨by decide, ?_, by decide⟩
  intro k
  omega

/-- C14: `Multiline()` returns true for every regular expression, whatever its flags string is,
with or without the character `m`. -/
theorem C14_Multiline_always_true :
    (∀ r : CScriptVarRegExp, r.Multiline = true) ∧
    (∀ regexp : String,
      ({ regexp := regexp, flags := "" } : CScriptVarRegExp).Multiline = true ∧
      ({ regexp := regexp, flags := "m" } : CScriptVarRegExp).Multiline = true ∧
      ({ regexp := regexp, flags := "gi" } : CScriptVarRegExp).Multiline = true) := by
  refine ⟨fun _ => rfl, fun _ => ⟨rfl, rfl, rfl⟩⟩

/-- Testing a single-bit flag reads that bit of the flag word. -/
theorem flag_test_two_pow (x g : Nat) : flag_test x (2 ^ g) = x.testBit g := by
  simp only [flag_test, Nat.and_two_pow]
  cases h : x.testBit g
  · simp
  · have : 2 ^ g ≠ 0 := Nat.pos_iff_ne_zero.mp (Nat.pow_pos (by decide))
    simp [this]

/-- Setting or clearing the single-bit flag `2 ^ f` leaves the test of another single-bit flag
`2 ^ g` of the 32-bit flag word as it was. -/
theorem flag_frame (x f g : Nat) (hfg : f ≠ g) (hg : g < 32) :
    flag_test (flag_set x (2 ^ f)) (2 ^ g) = flag_test x (2 ^ g) ∧
    flag_test (flag_clear x (2 ^ f)) (2 ^ g) = flag_test x (2 ^ g) := by
  rw [flag_test_two_pow, flag_test_two_pow, flag_test_two_pow]
  simp only [flag_set, flag_clear, bitNot32, Nat.testBit_or, Nat.testBit_and, Nat.testBit_xor,
    Nat.testBit_two_pow_sub_one, Nat.testBit_two_pow]
  simp [hfg, hg]

/-- Setting the single-bit flag `2 ^ f` makes its test true, clearing it makes its test false. -/
theorem flag_own (x f : Nat) (hf : f < 32) :
    flag_test (flag_set x (2 ^ f)) (2 ^ f) = true ∧
    flag_test (flag_clear x (2 ^ f)) (2 ^ f) = false := by
  rw [flag_test_two_pow, flag_test_two_pow]
  simp only [flag_set, flag_clear, bitNot32, Nat.testBit_or, Nat.testBit_and, Nat.testBit_xor,
    Nat.testBit_two_pow_sub_one, Nat.testBit_two_pow]
  simp [hf]

/-- C15: `RUNTIME_BREAK`, `RUNTIME_CONTINUE`, `RUNTIME_CAN_THROW` and `RUNTIME_THROW` are the
single bits 0, 1, 2 and 3, so they are non-zero and pairwise disjoint; setting or clearing one of
them in a flag word leaves the test of each other one unchanged, makes its own test true
respectively false; `RUNTIME_THROW_MASK` is the union of `RUNTIME_CAN_THROW` and
`RUNTIME_THROW`, has exactly the bits 2 and 3, and shares no bit with `RUNTIME_BREAK` or
`RUNTIME_CONTINUE`. -/
theorem C15_runtime_flags :
    (RUNTIME_BREAK = 2 ^ 0 ∧ RUNTIME_CONTINUE = 2 ^ 1 ∧ RUNTIME_CAN_THROW = 2 ^ 2 ∧
      RUNTIME_THROW = 2 ^ 3) ∧
    (RUNTIME_BREAK ≠ 0 ∧ RUNTIME_CONTINUE ≠ 0 ∧ RUNTIME_CAN_THROW ≠ 0 ∧ RUNTIME_THROW ≠ 0) ∧
    (RUNTIME_BREAK &&& RUNTIME_CONTINUE = 0 ∧ RUNTIME_BREAK &&& RUNTIME_CAN_THROW = 0 ∧
      RUNTIME_BREAK &&& RUNTIME_THROW = 0 ∧ RUNTIME_CONTINUE &&& RUNTIME_CAN_THROW = 0 ∧
      RUNTIME_CONTINUE &&& RUNTIME_THROW = 0 ∧ RUNTIME_CAN_THROW &&& RUNTIME_THROW = 0) ∧
    (∀ x : Nat,
      ∀ F ∈ [RUNTIME_BREAK, RUNTIME_CONTINUE, RUNTIME_CAN_THROW, RUNTIME_THROW],
      ∀ G ∈ [RUNTIME_BREAK, RUNTIME_CONTINUE, RUNTIME_CAN_THROW, RUNTIME_THROW],
        F ≠ G →
          flag_test (flag_set x F) G = flag_test x G ∧
          flag_test (flag_clear x F) G = flag_test x G) ∧
    (∀ x : Nat,
      ∀ F ∈ [RUNTIME_BREAK, RUNTIME_CONTINUE, RUNTIME_CAN_THROW, RUNTIME_THROW],
        flag_test (flag_set x F) F = true ∧ flag_test (flag_clear x F) F = false) ∧
    (RUNTIME_THROW_MASK = RUNTIME_CAN_THROW ||| RUNTIME_THROW ∧
      (∀ i, RUNTIME_THROW_MASK.testBit i = true ↔ (i = 2 ∨ i = 3)) ∧
      RUNTIME_THROW_MASK &&& RUNTIME_BREAK = 0 ∧ RUNTIME_THROW_MASK &&& RUNTIME_CONTINUE = 0) := by
  have hb : RUNTIME_BREAK = 2 ^ 0 := by decide
  have hc : RUNTIME_CONTINUE = 2 ^ 1 := by decide
  have hk : RUNTIME_CAN_THROW = 2 ^ 2 := by decide
  have ht : RUNTIME_THROW = 2 ^ 3 := by decide
  have hm : RUNTIME_THROW_MASK = 12 := by decide
  refine ⟨⟨hb, hc, hk, ht⟩, by decide, by decide, ?_, ?_, rfl, ?_, by decide, by decide⟩
  · intro x F hF G hG hne
    rw [hb, hc, hk, ht] at hF hG
    simp only [List.mem_cons, List.mem_singleton, List.not_mem_nil, or_false] at hF hG
    rcases hF with rfl | rfl | rfl | rfl <;> rcases hG with rfl | rfl | rfl | rfl <;>
      first
        | exact absurd rfl hne
        | exact flag_frame x _ _ (by decide) (by decide)
  · intro x F hF
    rw [hb, hc, hk, ht] at hF
    simp only [List.mem_cons, List.mem_singleton, List.not_mem_nil, or_false] at hF
    rcases hF with rfl | rfl | rfl | rfl <;> exact flag_own x _ (by decide)
  · intro i
    rw [hm]
    by_cases hi : 5 ≤ i
    · rw [testBit_of_lt_32 12 i (by decide) hi]
      constructor
      · intro h; cases h
      · intro h; omega
    · have : i = 0 ∨ i = 1 ∨ i = 2 ∨ i = 3 ∨ i = 4 := by omega
      rcases this with h | h | h | h | h <;> subst h <;> decide

/-- C16: each of the four constructors of `CScriptException` stores the message, the file name,
the line and the column it is given; the two without an `ERROR_TYPES` parameter set `errorType`
to the base kind `Error` and the other two store the kind given; a line or column that is not
supplied is -1 (and a C-string file name that is not supplied is empty). -/
theorem C16_exception_carries_arguments (ErrorType : ERROR_TYPES) (Message File : String)
    (Line Column : Int) :
    (CScriptException.construct_Message_File Message File (some Line) (some Column) =
        { errorType := .Error, message := Message, fileName := File, lineNumber := Line,
          column := Column } ∧
      CScriptException.construct_Message_File Message File (some Line) none =
        { errorType := .Error, message := Message, fileName := File, lineNumber := Line,
          column := -1 } ∧
      CScriptException.construct_Message_File Message File none none =
        { errorType := .Error, message := Message, fileName := File, lineNumber := -1,
          column := -1 }) ∧
    (CScriptException.construct_ErrorType_Message_File ErrorType Message File (some Line)
          (some Column) =
        { errorType := ErrorType, message := Message, fileName := File, lineNumber := Line,
          column := Column } ∧
      CScriptException.construct_ErrorType_Message_File ErrorType Message File (some Line) none =
        { errorType := ErrorType, message := Message, fileName := File, lineNumber := Line,
          column := -1 } ∧
      CScriptException.construct_ErrorType_Message_File ErrorType Message File none none =
        { errorType := ErrorType, message := Message, fileName := File, lineNumber := -1,
          column := -1 }) ∧
    (CScriptException.construct_Message_CFile Message (some File) (some Line) (some Column) =
        { errorType := .Error, message := Message, fileName := File, lineNumber := Line,
          column := Column } ∧
      CScriptException.construct_Message_CFile Message (some File) (some Line) none =
        { errorType := .Error, message := Message, fileName := File, lineNumber := Line,
          column := -1 } ∧
      CScriptException.construct_Message_CFile Message (some File) none none =
        { errorType := .Error, message := Message, fileName := File, lineNumber := -1,
          column := -1 } ∧
      CScriptException.construct_Message_CFile Message none none none =
        { errorType := .Error, message := Message, fileName := "", lineNumber := -1,
          column := -1 }) ∧
    (CScriptException.construct_ErrorType_Message_CFile ErrorType Message (some File)
          (some Line) (some Column) =
        { errorType := ErrorType, message := Message, fileName := File, lineNumber := Line,
          column := Column } ∧
      CScriptException.construct_ErrorType_Message_CFile ErrorType Message (some File)
          (some Line) none =
        { errorType := ErrorType, message := Message, fileName := File, lineNumber := Line,
          column := -1 } ∧
      CScriptException.construct_ErrorType_Message_CFile ErrorType Message (some File) none
          none =
        { errorType := ErrorType, message := Message, fileName := File, lineNumber := -1,
          column := -1 } ∧
      CScriptException.construct_ErrorType_Message_CFile ErrorType Message none none none =
        { errorType := ErrorType, message := Message, fileName := "", lineNumber := -1,
          column := -1 }) ∧
    ERROR_TYPES.Error.val = 0 := by
  refine ⟨⟨rfl, rfl, rfl⟩, ⟨rfl, rfl, rfl⟩, ⟨rfl, rfl, rfl, rfl⟩, ⟨rfl, rfl, rfl, rfl⟩, rfl⟩

/-- C18: the constructor of `CScriptVarScopeFnc` calls `addChild("__function_closure__",
Closure, 0)` after the base constructor exactly when `Closure` is non-null and then holds the
link that call returns; for a null `Closure` it makes no `addChild` call of its own and holds a
null link. The constructor of `CScriptVarScopeWith` always calls `addChild("__scope_with__",
With, 0)` after the base constructor and holds the link that call returns. A link with the flag
word 0 is not owned, writable, deletable, enumerable or hidden. -/
theorem C18_scope_internal_links (addChild : AddChildCall → Option LinkAddr)
    (baseCalls : List AddChildCall) :
    (∀ a : VarAddr,
      CScriptVarScopeFnc_construct addChild baseCalls (some a) =
        (addChild { childName := "__function_closure__", child := some a, linkFlags := 0 },
         baseCalls ++ [{ childName := "__function_closure__", child := some a,
                         linkFlags := 0 }])) ∧
    CScriptVarScopeFnc_construct addChild baseCalls none = (none, baseCalls) ∧
    (∀ Closure : CScriptVarPtr,
      (CScriptVarScopeFnc_construct addChild baseCalls Closure).2 ≠ baseCalls ↔
        Closure ≠ none) ∧
    (∀ With : CScriptVarPtr,
      CScriptVarScopeWith_construct addChild baseCalls With =
        (addChild { childName := "__scope_with__", child := With, linkFlags := 0 },
         baseCalls ++ [{ childName := "__scope_with__", child := With, linkFlags := 0 }])) ∧
    (∀ (owner var : Option VarAddr) (name : String),
      (CScriptVarLink.create owner var name 0).isOwned = false ∧
      (CScriptVarLink.create owner var name 0).isWritable = false ∧
      (CScriptVarLink.create owner var name 0).isDeletable = false ∧
      (CScriptVarLink.create owner var name 0).isEnumerable = false ∧
      (CScriptVarLink.create owner var name 0).isHidden = false) := by
  refine ⟨fun _ => rfl, rfl, ?_, fun _ => rfl, ?_⟩
  · intro Closure
    cases Closure with
    | none => simp [CScriptVarScopeFnc_construct]
    | some a => simp [CScriptVarScopeFnc_construct]
  · intro owner var name
    simp only [CScriptVarLink.create, CScriptVarLink.isWritable, CScriptVarLink.isDeletable,
      CScriptVarLink.isEnumerable, CScriptVarLink.isOwned, CScriptVarLink.isHidden]
    decide

/-- The search `find` reports an index exactly when the character occurs. -/
theorem std_string_find_from_ne_none (l : List Char) (ch : Char) :
    ∀ i : Nat, (std_string_find_from l ch i ≠ none ↔ ch ∈ l) := by
  induction l with
  | nil =>
    intro i
    simp [std_string_find_from]
  | cons c cs ih =>
    intro i
    by_cases h : c = ch
    · simp [std_string_find_from, h]
    · have h2 : ¬ ch = c := fun e => h e.symm
      simp [std_string_find_from, h, h2, ih (i + 1)]

/-- A flag query `flags.find(ch) != npos` is true exactly when `ch` occurs in the flags. -/
theorem std_string_find_ne_none (str : String) (ch : Char) :
    (std_string_find str ch != none) = true ↔ ch ∈ str.data := by
  rw [bne_iff_ne]
  exact std_string_find_from_ne_none str.data ch 0

/-- C19: `Global()` is true exactly when the flags string contains `g`, `IgnoreCase()` exactly
when it contains `i`, and `Sticky()` exactly when it contains `y`; so two flags strings with the
same set of characters (whatever their order, repetitions and other characters) give the same
three answers, and other characters do not change an answer. -/
theorem C19_regexp_flag_queries :
    (∀ r : CScriptVarRegExp,
      (r.Global = true ↔ 'g' ∈ r.flags.data) ∧
      (r.IgnoreCase = true ↔ 'i' ∈ r.flags.data) ∧
      (r.Sticky = true ↔ 'y' ∈ r.flags.data)) ∧
    (∀ r1 r2 : CScriptVarRegExp, (∀ c : Char, c ∈ r1.flags.data ↔ c ∈ r2.flags.data) →
      r1.Global = r2.Global ∧ r1.IgnoreCase = r2.IgnoreCase ∧ r1.Sticky = r2.Sticky) ∧
    (∀ r1 r2 : CScriptVarRegExp, r1.flags.data.Perm r2.flags.data →
      r1.Global = r2.Global ∧ r1.IgnoreCase = r2.IgnoreCase ∧ r1.Sticky = r2.Sticky) ∧
    (∀ (regexp : String) (before after : List Char) (other : Char),
      other ≠ 'g' → other ≠ 'i' → other ≠ 'y' →
      let r1 : CScriptVarRegExp := { regexp := regexp, flags := ⟨before ++ after⟩ }
      let r2 : CScriptVarRegExp := { regexp := regexp, flags := ⟨before ++ other :: after⟩ }
      r1.Global = r2.Global ∧ r1.IgnoreCase = r2.IgnoreCase ∧ r1.Sticky = r2.Sticky) := by
  have iff_all : ∀ r : CScriptVarRegExp,
      (r.Global = true ↔ 'g' ∈ r.flags.data) ∧
      (r.IgnoreCase = true ↔ 'i' ∈ r.flags.data) ∧
      (r.Sticky = true ↔ 'y' ∈ r.flags.data) := fun r =>
    ⟨std_string_find_ne_none r.flags 'g', std_string_find_ne_none r.flags 'i',
     std_string_find_ne_none r.flags 'y'⟩
  have same : ∀ r1 r2 : CScriptVarRegExp, (∀ c : Char, c ∈ r1.flags.data ↔ c ∈ r2.flags.data) →
      r1.Global = r2.Global ∧ r1.IgnoreCase = r2.IgnoreCase ∧ r1.Sticky = r2.Sticky := by
    intro r1 r2 h
    obtain ⟨g1, i1, y1⟩ := iff_all r1
    obtain ⟨g2, i2, y2⟩ := iff_all r2
    refine ⟨?_, ?_, ?_⟩
    · exact Bool.eq_iff_iff.mpr (g1.trans ((h 'g').trans g2.symm))
    · exact Bool.eq_iff_iff.mpr (i1.trans ((h 'i').trans i2.symm))
    · exact Bool.eq_iff_iff.mpr (y1.trans ((h 'y').trans y2.symm))
  refine ⟨iff_all, same, ?_, ?_⟩
  · intro r1 r2 hp
    exact same r1 r2 (fun c => hp.mem_iff)
  · intro regexp before after other hg hi hy
    obtain ⟨g1, i1, y1⟩ :=
      iff_all ({ regexp := regexp, flags := ⟨before ++ after⟩ } : CScriptVarRegExp)
    obtain ⟨g2, i2, y2⟩ :=
      iff_all ({ regexp := regexp, flags := ⟨before ++ other :: after⟩ } : CScriptVarRegExp)
    have hmem : ∀ c : Char, other ≠ c →
        (c ∈ before ++ after ↔ c ∈ before ++ other :: after) := by
      intro c hc
      have : ¬ c = other := fun e => hc e.symm
      simp [this]
    refine ⟨?_, ?_, ?_⟩
    · exact Bool.eq_iff_iff.mpr (g1.trans ((hmem 'g' hg).trans g2.symm))
    · exact Bool.eq_iff_iff.mpr (i1.trans ((hmem 'i' hi).trans i2.symm))
    · exact Bool.eq_iff_iff.mpr (y1.trans ((hmem 'y' hy).trans y2.symm))

/-- C20: a work pointer constructed from a non-null link, be it a raw `CScriptVarLink *` or a
`CScriptVarLinkPtr`, has the owner of that link as referenced owner; a work pointer constructed
from a value, name and flags, a work pointer after `operator()(var, name, flags)` and a work
pointer after `clear()` have a null referenced owner. -/
theorem C20_work_pointer_referenced_owner (mem : LinkAddr → CScriptVarLink) :
    (∀ L : LinkAddr,
      (CScriptVarLinkWorkPtr.construct_Link mem (some L)).1.getReferencedOwner =
        (mem L).getOwner ∧
      (CScriptVarLinkWorkPtr.construct_Link mem (some L)).1.link = some L ∧
      (CScriptVarLinkWorkPtr.construct_LinkPtr mem (some L)).1.getReferencedOwner =
        (mem L).getOwner ∧
      (CScriptVarLinkWorkPtr.construct_LinkPtr mem (some L)).1.link = some L) ∧
    (∀ (addr : LinkAddr) (refReturn : Option LinkAddr),
      (CScriptVarLinkWorkPtr.construct_var_name_flags addr refReturn).1.getReferencedOwner =
        none) ∧
    (∀ (w : CScriptVarLinkWorkPtr) (baseLink : Option LinkAddr) (baseCalls : List RefCall),
      (w.reconstruct baseLink baseCalls).1.getReferencedOwner = none) ∧
    (∀ w : CScriptVarLinkWorkPtr,
      (w.clear).1.getReferencedOwner = none ∧ (w.clear).1.link = none) := by
  refine ⟨?_, fun _ _ => rfl, fun _ _ _ => rfl, fun _ => ⟨rfl, rfl⟩⟩
  intro L
  have key : (CScriptVarPtr.assign CScriptVarPtr.construct_default
      (CScriptVarPtr.construct_Var (mem L).getOwner).1).1 = (mem L).getOwner := by
    simp only [CScriptVarPtr.assign, CScriptVarPtr.construct_default,
      CScriptVarPtr.construct_Var]
    cases (mem L).getOwner <;> simp
  exact ⟨key, rfl, key, rfl⟩

/-- The five link flags are the bits 0 to 4. -/
theorem SCRIPTVARLINK_bits :
    SCRIPTVARLINK_OWNED = 2 ^ 0 ∧ SCRIPTVARLINK_WRITABLE = 2 ^ 1 ∧
    SCRIPTVARLINK_DELETABLE = 2 ^ 2 ∧ SCRIPTVARLINK_ENUMERABLE = 2 ^ 3 ∧
    SCRIPTVARLINK_HIDDEN = 2 ^ 4 := by
  decide

/-- The five flag predicates of a link are tests of the bits 0 to 4 of its flag word. -/
theorem link_predicates_test_bits (l : CScriptVarLink) :
    l.isOwned = flag_test l.flags (2 ^ 0) ∧ l.isWritable = flag_test l.flags (2 ^ 1) ∧
    l.isDeletable = flag_test l.flags (2 ^ 2) ∧ l.isEnumerable = flag_test l.flags (2 ^ 3) ∧
    l.isHidden = flag_test l.flags (2 ^ 4) := by
  obtain ⟨h0, h1, h2, h3, h4⟩ := SCRIPTVARLINK_bits
  simp only [CScriptVarLink.isOwned, CScriptVarLink.isWritable, CScriptVarLink.isDeletable,
    CScriptVarLink.isEnumerable, CScriptVarLink.isHidden, flag_test, h0, h1, h2, h3, h4,
    and_self]

/-- Setting or clearing bit `f` of a flag word, as the flag setters do, leaves the test of
another bit `g` unchanged. -/
theorem setter_frame (x f g : Nat) (On : Bool) (hfg : f ≠ g) (hg : g < 32) :
    flag_test (if On then x ||| 2 ^ f else x &&& bitNot32 (2 ^ f)) (2 ^ g) =
      flag_test x (2 ^ g) := by
  cases On
  · exact (flag_frame x f g hfg hg).2
  · exact (flag_frame x f g hfg hg).1

/-- Setting or clearing bit `f` of a flag word, as the flag setters do, makes the test of bit
`f` answer what was set. -/
theorem setter_own (x f : Nat) (On : Bool) (hf : f < 32) :
    flag_test (if On then x ||| 2 ^ f else x &&& bitNot32 (2 ^ f)) (2 ^ f) = On := by
  cases On
  · exact (flag_own x f hf).2
  · exact (flag_own x f hf).1

/-- Setting or clearing a bit twice is the same as doing it once. -/
theorem setter_idempotent (x F : Nat) :
    (x ||| F) ||| F = x ||| F ∧ (x &&& bitNot32 F) &&& bitNot32 F = x &&& bitNot32 F := by
  constructor
  · apply Nat.eq_of_testBit_eq
    intro i
    simp only [Nat.testBit_or, Bool.or_assoc, Bool.or_self]
  · apply Nat.eq_of_testBit_eq
    intro i
    simp only [Nat.testBit_and, Bool.and_assoc, Bool.and_self]

/-- C21 fails on the code: `setWritable(false)` clears `SCRIPTVARLINK_DELETABLE`, not
`SCRIPTVARLINK_WRITABLE`. On a link with the default flags (writable, deletable, enumerable)
`isWritable()` is still true after `setWritable(false)` and `isDeletable()` has become false; on
every link `setWritable(false)` leaves `isWritable()` as it was and makes `isDeletable()`
false, while `setWritable(true)` does make `isWritable()` true and keeps the other four. -/
theorem C21_setWritable_false_clears_deletable :
    ((CScriptVarLink.create none none "x" SCRIPTVARLINK_DEFAULT).isWritable = true ∧
      (CScriptVarLink.create none none "x" SCRIPTVARLINK_DEFAULT).isDeletable = true ∧
      ((CScriptVarLink.create none none "x" SCRIPTVARLINK_DEFAULT).setWritable
        false).isWritable = true ∧
      ((CScriptVarLink.create none none "x" SCRIPTVARLINK_DEFAULT).setWritable
        false).isDeletable = false) ∧
    (∀ l : CScriptVarLink,
      (l.setWritable false).isWritable = l.isWritable ∧
      (l.setWritable false).isDeletable = false ∧
      (l.setWritable false).isOwned = l.isOwned ∧
      (l.setWritable false).isEnumerable = l.isEnumerable ∧
      (l.setWritable false).isHidden = l.isHidden) ∧
    (∀ l : CScriptVarLink,
      (l.setWritable true).isWritable = true ∧
      (l.setWritable true).isDeletable = l.isDeletable ∧
      (l.setWritable true).isOwned = l.isOwned ∧
      (l.setWritable true).isEnumerable = l.isEnumerable ∧
      (l.setWritable true).isHidden = l.isHidden) := by
  obtain ⟨h0, h1, h2, h3, h4⟩ := SCRIPTVARLINK_bits
  have hfalse : ∀ l : CScriptVarLink,
      (l.setWritable false).flags = (if false then l.flags ||| 2 ^ 2
        else l.flags &&& bitNot32 (2 ^ 2)) := by
    intro l
    simp only [CScriptVarLink.setWritable, h2]
    rfl
  have htrue : ∀ l : CScriptVarLink,
      (l.setWritable true).flags = (if true then l.flags ||| 2 ^ 1
        else l.flags &&& bitNot32 (2 ^ 1)) := by
    intro l
    simp only [CScriptVarLink.setWritable, h1]
    rfl
  have general_false : ∀ l : CScriptVarLink,
      (l.setWritable false).isWritable = l.isWritable ∧
      (l.setWritable false).isDeletable = false ∧
      (l.setWritable false).isOwned = l.isOwned ∧
      (l.setWritable false).isEnumerable = l.isEnumerable ∧
      (l.setWritable false).isHidden = l.isHidden := by
    intro l
    obtain ⟨a0, a1, a2, a3, a4⟩ := link_predicates_test_bits (l.setWritable false)
    obtain ⟨b0, b1, b2, b3, b4⟩ := link_predicates_test_bits l
    rw [a0, a1, a2, a3, a4, b0, b1, b3, b4, hfalse l]
    exact ⟨setter_frame l.flags 2 1 false (by decide) (by decide),
      setter_own l.flags 2 false (by decide),
      setter_frame l.flags 2 0 false (by decide) (by decide),
      setter_frame l.flags 2 3 false (by decide) (by decide),
      setter_frame l.flags 2 4 false (by decide) (by decide)⟩
  refine ⟨?_, general_false, ?_⟩
  · have hw : (CScriptVarLink.create none none "x" SCRIPTVARLINK_DEFAULT).isWritable = true := by
      simp only [CScriptVarLink.create, CScriptVarLink.isWritable]
      decide
    have hd : (CScriptVarLink.create none none "x" SCRIPTVARLINK_DEFAULT).isDeletable = true := by
      simp only [CScriptVarLink.create, CScriptVarLink.isDeletable]
      decide
    obtain ⟨g1, g2, -⟩ := general_false (CScriptVarLink.create none none "x" SCRIPTVARLINK_DEFAULT)
    exact ⟨hw, hd, g1.trans hw, g2⟩
  · intro l
    obtain ⟨a0, a1, a2, a3, a4⟩ := link_predicates_test_bits (l.setWritable true)
    obtain ⟨b0, b1, b2, b3, b4⟩ := link_predicates_test_bits l
    rw [a0, a1, a2, a3, a4, b0, b2, b3, b4, htrue l]
    exact ⟨setter_own l.flags 1 true (by decide),
      setter_frame l.flags 1 2 true (by decide) (by decide),
      setter_frame l.flags 1 0 true (by decide) (by decide),
      setter_frame l.flags 1 3 true (by decide) (by decide),
      setter_frame l.flags 1 4 true (by decide) (by decide)⟩

/-- C22: for every link and every `On`, each of `setOwned`, `setDeletable`, `setEnumerable` and
`setHidden` makes its own predicate answer `On`, leaves the other four predicates (among them
`isWritable`) as they were, and applied twice with the same value gives the same link as applied
once. -/
theorem C22_flag_setters (l : CScriptVarLink) (On : Bool) :
    ((l.setOwned On).isOwned = On ∧ (l.setOwned On).isWritable = l.isWritable ∧
      (l.setOwned On).isDeletable = l.isDeletable ∧
      (l.setOwned On).isEnumerable = l.isEnumerable ∧ (l.setOwned On).isHidden = l.isHidden ∧
      (l.setOwned On).setOwned On = l.setOwned On) ∧
    ((l.setDeletable On).isDeletable = On ∧ (l.setDeletable On).isOwned = l.isOwned ∧
      (l.setDeletable On).isWritable = l.isWritable ∧
      (l.setDeletable On).isEnumerable = l.isEnumerable ∧
      (l.setDeletable On).isHidden = l.isHidden ∧
      (l.setDeletable On).setDeletable On = l.setDeletable On) ∧
    ((l.setEnumerable On).isEnumerable = On ∧ (l.setEnumerable On).isOwned = l.isOwned ∧
      (l.setEnumerable On).isWritable = l.isWritable ∧
      (l.setEnumerable On).isDeletable = l.isDeletable ∧
      (l.setEnumerable On).isHidden = l.isHidden ∧
      (l.setEnumerable On).setEnumerable On = l.setEnumerable On) ∧
    ((l.setHidden On).isHidden = On ∧ (l.setHidden On).isOwned = l.isOwned ∧
      (l.setHidden On).isWritable = l.isWritable ∧
      (l.setHidden On).isDeletable = l.isDeletable ∧
      (l.setHidden On).isEnumerable = l.isEnumerable ∧
      (l.setHidden On).setHidden On = l.setHidden On) := by
  obtain ⟨h0, h1, h2, h3, h4⟩ := SCRIPTVARLINK_bits
  obtain ⟨b0, b1, b2, b3, b4⟩ := link_predicates_test_bits l
  have e0 : (l.setOwned On).flags =
      (if On then l.flags ||| 2 ^ 0 else l.flags &&& bitNot32 (2 ^ 0)) := by
    simp only [CScriptVarLink.setOwned, h0]
    cases On <;> rfl
  have e2 : (l.setDeletable On).flags =
      (if On then l.flags ||| 2 ^ 2 else l.flags &&& bitNot32 (2 ^ 2)) := by
    simp only [CScriptVarLink.setDeletable, h2]
    cases On <;> rfl
  have e3 : (l.setEnumerable On).flags =
      (if On then l.flags ||| 2 ^ 3 else l.flags &&& bitNot32 (2 ^ 3)) := by
    simp only [CScriptVarLink.setEnumerable, h3]
    cases On <;> rfl
  have e4 : (l.setHidden On).flags =
      (if On then l.flags ||| 2 ^ 4 else l.flags &&& bitNot32 (2 ^ 4)) := by
    simp only [CScriptVarLink.setHidden, h4]
    cases On <;> rfl
  refine ⟨?_, ?_, ?_, ?_⟩
  · obtain ⟨a0, a1, a2, a3, a4⟩ := link_predicates_test_bits (l.setOwned On)
    rw [a0, a1, a2, a3, a4, b1, b2, b3, b4, e0]
    refine ⟨setter_own l.flags 0 On (by decide),
      setter_frame l.flags 0 1 On (by decide) (by decide),
      setter_frame l.flags 0 2 On (by decide) (by decide),
      setter_frame l.flags 0 3 On (by decide) (by decide),
      setter_frame l.flags 0 4 On (by decide) (by decide), ?_⟩
    cases On <;>
      simp [CScriptVarLink.setOwned, (setter_idempotent l.flags SCRIPTVARLINK_OWNED).1,
        (setter_idempotent l.flags SCRIPTVARLINK_OWNED).2]
  · obtain ⟨a0, a1, a2, a3, a4⟩ := link_predicates_test_bits (l.setDeletable On)
    rw [a0, a1, a2, a3, a4, b0, b1, b3, b4, e2]
    refine ⟨setter_own l.flags 2 On (by decide),
      setter_frame l.flags 2 0 On (by decide) (by decide),
      setter_frame l.flags 2 1 On (by decide) (by decide),
      setter_frame l.flags 2 3 On (by decide) (by decide),
      setter_frame l.flags 2 4 On (by decide) (by decide), ?_⟩
    cases On <;>
      simp [CScriptVarLink.setDeletable, (setter_idempotent l.flags SCRIPTVARLINK_DELETABLE).1,
        (setter_idempotent l.flags SCRIPTVARLINK_DELETABLE).2]
  · obtain ⟨a0, a1, a2, a3, a4⟩ := link_predicates_test_bits (l.setEnumerable On)
    rw [a0, a1, a2, a3, a4, b0, b1, b2, b4, e3]
    refine ⟨setter_own l.flags 3 On (by decide),
      setter_frame l.flags 3 0 On (by decide) (by decide),
      setter_frame l.flags 3 1 On (by decide) (by decide),
      setter_frame l.flags 3 2 On (by decide) (by decide),
      setter_frame l.flags 3 4 On (by decide) (by decide), ?_⟩
    cases On <;>
      simp [CScriptVarLink.setEnumerable,
        (setter_idempotent l.flags SCRIPTVARLINK_ENUMERABLE).1,
        (setter_idempotent l.flags SCRIPTVARLINK_ENUMERABLE).2]
  · obtain ⟨a0, a1, a2, a3, a4⟩ := link_predicates_test_bits (l.setHidden On)
    rw [a0, a1, a2, a3, a4, b0, b1, b2, b3, e4]
    refine ⟨setter_own l.flags 4 On (by decide),
      setter_frame l.flags 4 0 On (by decide) (by decide),
      setter_frame l.flags 4 1 On (by decide) (by decide),
      setter_frame l.flags 4 2 On (by decide) (by decide),
      setter_frame l.flags 4 3 On (by decide) (by decide), ?_⟩
    cases On <;>
      simp [CScriptVarLink.setHidden, (setter_idempotent l.flags SCRIPTVARLINK_HIDDEN).1,
        (setter_idempotent l.flags SCRIPTVARLINK_HIDDEN).2]

/-- C23: reference accounting of `CScriptVarPtr` and of `CScriptVarLinkPtr`. The assignment
`p = q` makes one `unref()` on the former target of `p` and then one `ref()` on the target of
`q` when the targets differ, leaving out the call on a null target, and makes no call when the
targets are the same (self-assignment included); afterwards `p` holds the target of `q` (for
`CScriptVarPtr`: `p == q`). Copy construction makes one `ref()` on a non-null target and none on
a null one; destruction and `clear()` make one `unref()` on a non-null target and none on a null
one, and `clear()` leaves the handle null. -/
theorem C23_reference_accounting :
    ((∀ a b : VarAddr, a ≠ b →
        CScriptVarPtr.assign (some a) (some b) = (some b, [.var_unref a, .var_ref b])) ∧
      (∀ b : VarAddr, CScriptVarPtr.assign none (some b) = (some b, [.var_ref b])) ∧
      (∀ a : VarAddr, CScriptVarPtr.assign (some a) none = (none, [.var_unref a])) ∧
      (∀ p : CScriptVarPtr, CScriptVarPtr.assign p p = (p, [])) ∧
      (∀ p q : CScriptVarPtr,
        (CScriptVarPtr.assign p q).1 = q ∧
        CScriptVarPtr.eq (CScriptVarPtr.assign p q).1 q = true) ∧
      (∀ a : VarAddr, CScriptVarPtr.construct_Copy (some a) = (some a, [.var_ref a])) ∧
      CScriptVarPtr.construct_Copy none = (none, []) ∧
      (∀ a : VarAddr, CScriptVarPtr.destruct (some a) = [.var_unref a]) ∧
      CScriptVarPtr.destruct none = [] ∧
      (∀ a : VarAddr, CScriptVarPtr.clear (some a) = (none, [.var_unref a])) ∧
      CScriptVarPtr.clear none = (none, [])) ∧
    ((∀ a b : LinkAddr, a ≠ b →
        CScriptVarLinkPtr.assign (some a) (some b) = (some b, [.link_unref a, .link_ref b])) ∧
      (∀ b : LinkAddr, CScriptVarLinkPtr.assign none (some b) = (some b, [.link_ref b])) ∧
      (∀ a : LinkAddr, CScriptVarLinkPtr.assign (some a) none = (none, [.link_unref a])) ∧
      (∀ p : CScriptVarLinkPtr, CScriptVarLinkPtr.assign p p = (p, [])) ∧
      (∀ p q : CScriptVarLinkPtr, (CScriptVarLinkPtr.assign p q).1 = q) ∧
      (∀ a : LinkAddr, CScriptVarLinkPtr.construct_Copy (some a) = (some a, [.link_ref a])) ∧
      CScriptVarLinkPtr.construct_Copy none = (none, []) ∧
      (∀ a : LinkAddr, CScriptVarLinkPtr.destruct (some a) = [.link_unref a]) ∧
      CScriptVarLinkPtr.destruct none = [] ∧
      (∀ a : LinkAddr, CScriptVarLinkPtr.clear (some a) = (none, [.link_unref a])) ∧
      CScriptVarLinkPtr.clear none = (none, [])) := by
  have hv : ∀ p q : CScriptVarPtr, (CScriptVarPtr.assign p q).1 = q := by
    intro p q
    by_cases h : p = q
    · simp [CScriptVarPtr.assign, h]
    · simp [CScriptVarPtr.assign, h]
  have hl : ∀ p q : CScriptVarLinkPtr, (CScriptVarLinkPtr.assign p q).1 = q := by
    intro p q
    by_cases h : p = q
    · simp [CScriptVarLinkPtr.assign, h]
    · simp [CScriptVarLinkPtr.assign, h]
  refine ⟨⟨?_, ?_, ?_, ?_, ?_, fun _ => rfl, rfl, fun _ => rfl, rfl, fun _ => rfl, rfl⟩,
    ⟨?_, ?_, ?_, ?_, hl, fun _ => rfl, rfl, fun _ => rfl, rfl, fun _ => rfl, rfl⟩⟩
  · intro a b hab
    simp [CScriptVarPtr.assign, hab, CScriptVarPtr.unref_if, CScriptVarPtr.ref_if]
  · intro b
    simp [CScriptVarPtr.assign, CScriptVarPtr.unref_if, CScriptVarPtr.ref_if]
  · intro a
    simp [CScriptVarPtr.assign, CScriptVarPtr.unref_if, CScriptVarPtr.ref_if]
  · intro p
    simp [CScriptVarPtr.assign]
  · intro p q
    refine ⟨hv p q, ?_⟩
    rw [hv p q]
    simp [CScriptVarPtr.eq]
  · intro a b hab
    simp [CScriptVarLinkPtr.assign, hab, CScriptVarLinkPtr.unref_if, CScriptVarLinkPtr.ref_if]
  · intro b
    simp [CScriptVarLinkPtr.assign, CScriptVarLinkPtr.unref_if, CScriptVarLinkPtr.ref_if]
  · intro a
    simp [CScriptVarLinkPtr.assign, CScriptVarLinkPtr.unref_if, CScriptVarLinkPtr.ref_if]
  · intro p
    simp [CScriptVarLinkPtr.assign]

/-- C25: after `a.swap(b)`, `a` holds the link and the referenced owner `b` held and `b` those
`a` held; the reference-count calls made come to a net change of zero for every value and every
link; and a second `a.swap(b)` restores both work pointers. -/
theorem C25_swap_exchanges (a b : CScriptVarLinkWorkPtr) :
    ((a.swap b).1.link = b.link ∧ (a.swap b).1.getReferencedOwner = b.getReferencedOwner ∧
      (a.swap b).2.1.link = a.link ∧
      (a.swap b).2.1.getReferencedOwner = a.getReferencedOwner) ∧
    ((a.swap b).1 = b ∧ (a.swap b).2.1 = a) ∧
    (∀ v : VarAddr, RefCall.net_var v (a.swap b).2.2 = 0) ∧
    (∀ l : LinkAddr, RefCall.net_link l (a.swap b).2.2 = 0) ∧
    (((a.swap b).1.swap (a.swap b).2.1).1 = a ∧ ((a.swap b).1.swap (a.swap b).2.1).2.1 = b) := by
  have hv : ∀ p q : CScriptVarPtr, (CScriptVarPtr.assign p q).1 = q := by
    intro p q
    by_cases h : p = q
    · simp [CScriptVarPtr.assign, h]
    · simp [CScriptVarPtr.assign, h]
  have h1 : ∀ x y : CScriptVarLinkWorkPtr, (x.swap y).1 = y := by
    intro x y
    cases y
    simp [CScriptVarLinkWorkPtr.swap, hv]
  have h2 : ∀ x y : CScriptVarLinkWorkPtr, (x.swap y).2.1 = x := by
    intro x y
    cases x
    simp [CScriptVarLinkWorkPtr.swap, hv, CScriptVarPtr.construct_Copy]
  refine ⟨?_, ⟨h1 a b, h2 a b⟩, ?_, ?_, ?_⟩
  · rw [h1 a b, h2 a b]
    exact ⟨rfl, rfl, rfl, rfl⟩
  · intro v
    obtain ⟨al, ao⟩ := a
    obtain ⟨bl, bo⟩ := b
    cases ao with
    | none =>
      cases bo with
      | none => simp [CScriptVarLinkWorkPtr.swap, CScriptVarPtr.assign,
          CScriptVarPtr.construct_Copy, CScriptVarPtr.destruct, CScriptVarPtr.ref_if,
          CScriptVarPtr.unref_if, RefCall.net_var]
      | some y =>
        simp only [CScriptVarLinkWorkPtr.swap, CScriptVarPtr.assign,
          CScriptVarPtr.construct_Copy, CScriptVarPtr.destruct, CScriptVarPtr.ref_if,
          CScriptVarPtr.unref_if, RefCall.net_var, ne_eq, reduceCtorEq, not_false_eq_true,
          if_true, List.append_assoc, List.cons_append, List.nil_append, List.append_nil]
        by_cases e2 : y = v <;> simp [e2]
    | some x =>
      cases bo with
      | none =>
        simp only [CScriptVarLinkWorkPtr.swap, CScriptVarPtr.assign,
          CScriptVarPtr.construct_Copy, CScriptVarPtr.destruct, CScriptVarPtr.ref_if,
          CScriptVarPtr.unref_if, RefCall.net_var, ne_eq, reduceCtorEq, not_false_eq_true,
          if_true, List.append_assoc, List.cons_append, List.nil_append, List.append_nil]
        by_cases e1 : x = v <;> simp [e1]
      | some y =>
        by_cases hxy : x = y
        · subst hxy
          simp only [CScriptVarLinkWorkPtr.swap, CScriptVarPtr.assign,
            CScriptVarPtr.construct_Copy, CScriptVarPtr.destruct, CScriptVarPtr.ref_if,
            CScriptVarPtr.unref_if, RefCall.net_var, ne_eq, not_true_eq_false, if_false,
            List.append_assoc, List.cons_append, List.nil_append, List.append_nil]
          by_cases e1 : x = v <;> simp [e1]
        · have hyx : ¬ y = x := fun e => hxy e.symm
          simp only [CScriptVarLinkWorkPtr.swap, CScriptVarPtr.assign,
            CScriptVarPtr.construct_Copy, CScriptVarPtr.destruct, CScriptVarPtr.ref_if,
            CScriptVarPtr.unref_if, RefCall.net_var, ne_eq, Option.some.injEq, hxy, hyx,
            not_false_eq_true, if_true, List.append_assoc, List.cons_append, List.nil_append]
          by_cases e1 : x = v <;> by_cases e2 : y = v <;> simp [e1, e2]
  · intro l
    obtain ⟨al, ao⟩ := a
    obtain ⟨bl, bo⟩ := b
    cases ao with
    | none =>
      cases bo with
      | none => simp [CScriptVarLinkWorkPtr.swap, CScriptVarPtr.assign,
          CScriptVarPtr.construct_Copy, CScriptVarPtr.destruct, CScriptVarPtr.ref_if,
          CScriptVarPtr.unref_if, RefCall.net_link]
      | some y => simp [CScriptVarLinkWorkPtr.swap, CScriptVarPtr.assign,
          CScriptVarPtr.construct_Copy, CScriptVarPtr.destruct, CScriptVarPtr.ref_if,
          CScriptVarPtr.unref_if, RefCall.net_link]
    | some x =>
      cases bo with
      | none => simp [CScriptVarLinkWorkPtr.swap, CScriptVarPtr.assign,
          CScriptVarPtr.construct_Copy, CScriptVarPtr.destruct, CScriptVarPtr.ref_if,
          CScriptVarPtr.unref_if, RefCall.net_link]
      | some y =>
        by_cases hxy : x = y
        · subst hxy
          simp [CScriptVarLinkWorkPtr.swap, CScriptVarPtr.assign,
            CScriptVarPtr.construct_Copy, CScriptVarPtr.destruct, CScriptVarPtr.ref_if,
            CScriptVarPtr.unref_if, RefCall.net_link]
        · have hyx : ¬ y = x := fun e => hxy e.symm
          simp [CScriptVarLinkWorkPtr.swap, CScriptVarPtr.assign,
            CScriptVarPtr.construct_Copy, CScriptVarPtr.destruct, CScriptVarPtr.ref_if,
            CScriptVarPtr.unref_if, RefCall.net_link, hxy, hyx]
  · rw [h1 a b, h2 a b, h1 b a, h2 b a]
    exact ⟨rfl, rfl⟩

/-- The call that deletes a payload holding `refs` references is the first `unref()` after
which `refs` plus the number of `ref()` calls minus the number of `unref()` calls is zero. -/
theorem deletedBy_eq_some_iff (cs : List TokenDataCall) :
    ∀ (refs : Int) (i : Nat),
      CScriptTokenData.deletedBy cs refs = some i ↔
        (cs[i]? = some TokenDataCall.unref ∧
          refs + TokenDataCall.balance (cs.take (i + 1)) = 0 ∧
          ∀ j < i, ¬ (cs[j]? = some TokenDataCall.unref ∧
            refs + TokenDataCall.balance (cs.take (j + 1)) = 0)) := by
  induction cs with
  | nil =>
    intro refs i
    simp [CScriptTokenData.deletedBy]
  | cons c cs ih =>
    intro refs i
    cases c with
    | ref =>
      cases i with
      | zero => simp [CScriptTokenData.deletedBy]
      | succ k =>
        simp only [CScriptTokenData.deletedBy, CScriptTokenData.ref, Option.map_eq_some',
          Nat.add_right_cancel_iff, exists_eq_right, ih (refs + 1) k,
          List.getElem?_cons_succ, List.take_succ_cons, TokenDataCall.balance]
        constructor
        · rintro ⟨h1, h2, h3⟩
          refine ⟨h1, by omega, ?_⟩
          intro j hj
          cases j with
          | zero => simp
          | succ j' =>
            have := h3 j' (by omega)
            simp only [List.getElem?_cons_succ, List.take_succ_cons, TokenDataCall.balance]
            intro hh
            exact this ⟨hh.1, by omega⟩
        · rintro ⟨h1, h2, h3⟩
          refine ⟨h1, by omega, ?_⟩
          intro j hj hh
          have := h3 (j + 1) (by omega)
          simp only [List.getElem?_cons_succ, List.take_succ_cons, TokenDataCall.balance] at this
          exact this ⟨hh.1, by omega⟩
    | unref =>
      by_cases hz : refs - 1 = 0
      · cases i with
        | zero =>
          simp [CScriptTokenData.deletedBy, CScriptTokenData.unref, hz, TokenDataCall.balance]
          omega
        | succ k =>
          simp only [CScriptTokenData.deletedBy, CScriptTokenData.unref, hz, beq_self_eq_true,
            if_true, Option.some.injEq]
          constructor
          · intro h
            omega
          · rintro ⟨-, -, h3⟩
            exact absurd ⟨by simp, by simp [TokenDataCall.balance]; omega⟩ (h3 0 (by omega))
      · have hb : (refs - 1 == 0) = false := by simpa using hz
        cases i with
        | zero =>
          simp [CScriptTokenData.deletedBy, CScriptTokenData.unref, hb, TokenDataCall.balance]
          omega
        | succ k =>
          simp only [CScriptTokenData.deletedBy, CScriptTokenData.unref, hb, Bool.false_eq_true,
            if_false, Option.map_eq_some', Nat.add_right_cancel_iff, exists_eq_right,
            ih (refs - 1) k, List.getElem?_cons_succ, List.take_succ_cons,
            TokenDataCall.balance]
          constructor
          · rintro ⟨h1, h2, h3⟩
            refine ⟨h1, by omega, ?_⟩
            intro j hj
            cases j with
            | zero =>
              simp [TokenDataCall.balance]
              omega
            | succ j' =>
              have := h3 j' (by omega)
              simp only [List.getElem?_cons_succ, List.take_succ_cons, TokenDataCall.balance]
              intro hh
              exact this ⟨hh.1, by omega⟩
          · rintro ⟨h1, h2, h3⟩
            refine ⟨h1, by omega, ?_⟩
            intro j hj hh
            have := h3 (j + 1) (by omega)
            simp only [List.getElem?_cons_succ, List.take_succ_cons,
              TokenDataCall.balance] at this
            exact this ⟨hh.1, by omega⟩

/-- C24: a fresh payload has reference count 0, and in every sequence of `ref()` and `unref()`
calls on it (so in every sequence in which each prefix has at least as many `ref()` as
`unref()` calls) the call that deletes the payload is the first `unref()` after which the
numbers of `ref()` and `unref()` calls are equal: call `i` deletes it exactly when call `i` is an
`unref()`, the two numbers are equal after call `i`, and no earlier `unref()` had them equal. -/
theorem C24_payload_deleted_at_first_balance (cs : List TokenDataCall) (i : Nat) :
    CScriptTokenData.construct = 0 ∧
    (CScriptTokenData.deletedBy cs CScriptTokenData.construct = some i ↔
      (cs[i]? = some TokenDataCall.unref ∧ TokenDataCall.balance (cs.take (i + 1)) = 0 ∧
        ∀ j < i, ¬ (cs[j]? = some TokenDataCall.unref ∧
          TokenDataCall.balance (cs.take (j + 1)) = 0))) := by
  refine ⟨rfl, ?_⟩
  have h := deletedBy_eq_some_iff cs 0 i
  simp only [Int.zero_add] at h
  exact h

/-- C26: `tkStr()` never fails the assertion of `String()`. It calls `String()` once when the
kind of the current token passes `LEX_TOKEN_DATA_STRING` and not at all otherwise; for a token of
a string kind that holds a string payload it returns that payload's string, and for every other
kind, among them the kind `LEX_EOF` of a default-constructed token, the empty string. -/
theorem C26_tkStr_respects_assertion (current : CScriptTokenObject) :
    (CScriptTokenizer.tkStr current).1 ≠ Access.assertFails ∧
    ((CScriptTokenizer.tkStr current).2 = 1 ↔
      LEX_TOKEN_DATA_STRING current.head.token = true) ∧
    ((CScriptTokenizer.tkStr current).2 = 0 ↔
      LEX_TOKEN_DATA_STRING current.head.token = false) ∧
    (LEX_TOKEN_DATA_STRING current.head.token = true →
      ∀ tokenStr : String,
        CScriptTokenizer.tkStr { head := current.head, data := .tokenData (.String tokenStr) } =
          (Access.value tokenStr, 1)) ∧
    (LEX_TOKEN_DATA_STRING current.head.token = false →
      CScriptTokenizer.tkStr current = (Access.value "", 0)) ∧
    (CScriptTokenObject.construct_default.head.token = LEX_EOF ∧
      CScriptTokenizer.tkStr CScriptTokenObject.construct_default = (Access.value "", 0)) := by
  refine ⟨?_, ?_, ?_, ?_, ?_, rfl, ?_⟩
  · cases h : LEX_TOKEN_DATA_STRING current.head.token
    · simp [CScriptTokenizer.tkStr, h]
    · simp only [CScriptTokenizer.tkStr, h, if_true, CScriptTokenObject.String]
      split <;> simp
  · cases h : LEX_TOKEN_DATA_STRING current.head.token <;> simp [CScriptTokenizer.tkStr, h]
  · cases h : LEX_TOKEN_DATA_STRING current.head.token <;> simp [CScriptTokenizer.tkStr, h]
  · intro h tokenStr
    simp [CScriptTokenizer.tkStr, CScriptTokenObject.String, h]
  · intro h
    simp [CScriptTokenizer.tkStr, h]
  · have h : LEX_TOKEN_DATA_STRING CScriptTokenObject.construct_default.head.token = false := by
      decide
    simp [CScriptTokenizer.tkStr, h]

/-- C27: for every 32-bit counter value `u`, `getUniqueID` stores and returns
`(u + 1) mod 2 ^ 32`; the result is `u + 1` and not zero whenever `u < 2 ^ 32 - 1`, and it is 0
exactly when `u = 2 ^ 32 - 1`. With the stamp 0 the recursion check of `getParsableString` never
reports a recursion, and 0 is the default of the parameter `ID` of `keys`. -/
theorem C27_getUniqueID_modulo (c : CTinyJS) (h : c.uniqueID < 2 ^ 32) :
    (c.getUniqueID).1 = (c.uniqueID + 1) % 2 ^ 32 ∧
    (c.getUniqueID).2.uniqueID = (c.uniqueID + 1) % 2 ^ 32 ∧
    (c.uniqueID < 2 ^ 32 - 1 →
      (c.getUniqueID).1 = c.uniqueID + 1 ∧ (c.getUniqueID).1 ≠ 0) ∧
    ((c.getUniqueID).1 = 0 ↔ c.uniqueID = 2 ^ 32 - 1) ∧
    (∀ (v : CScriptVar) (hasRecursion : Bool),
      (getParsableStringRecursionsCheck 0 v hasRecursion).1 = none ∧
      (getParsableStringRecursionsCheck 0 v hasRecursion).2.2 = hasRecursion) ∧
    keys_ID_default = 0 := by
  have hr : (c.getUniqueID).1 = (c.uniqueID + 1) % 2 ^ 32 := rfl
  refine ⟨hr, rfl, ?_, ?_, ?_, rfl⟩
  · intro hlt
    rw [hr, Nat.mod_eq_of_lt (by omega)]
    exact ⟨rfl, by omega⟩
  · rw [hr]
    constructor
    · intro h0
      by_contra hne
      rw [Nat.mod_eq_of_lt (by omega)] at h0
      omega
    · intro he
      rw [he]
      decide
  · intro v hasRecursion
    simp [getParsableStringRecursionsCheck]

/-- C27 at the counter `2 ^ 32 - 1`, where `getUniqueID` returns 0. -/
theorem C27_getUniqueID_modulo_witness :
    (CTinyJS.sample [] 4294967295).uniqueID < 2 ^ 32 ∧
    ((CTinyJS.sample [] 4294967295).getUniqueID).1 = 0 :=
  ⟨by decide,
   (C27_getUniqueID_modulo (CTinyJS.sample [] 4294967295) (by decide)).2.2.2.1.mpr rfl⟩

/-- C28: for a stamp `uniqueID` other than 0 and a value whose `temporaryID` differs from it, the
recursion check does not report a recursion (execution continues, `hasRecursion` keeps its
value) and sets `temporaryID` to `uniqueID`; a second check of the value with the same stamp sets
`hasRecursion` to true and makes the enclosing function return the string `recursion`. With the
stamp 0 the check never reports a recursion. -/
theorem C28_recursion_check (uniqueID : Nat) (v : CScriptVar) (hasRecursion : Bool)
    (h0 : uniqueID ≠ 0) (hne : v.temporaryID ≠ uniqueID) :
    getParsableStringRecursionsCheck uniqueID v hasRecursion =
      (none, { v with temporaryID := uniqueID }, hasRecursion) ∧
    (∀ hasRecursion2 : Bool,
      getParsableStringRecursionsCheck uniqueID
          (getParsableStringRecursionsCheck uniqueID v hasRecursion).2.1 hasRecursion2 =
        (some "recursion", { v with temporaryID := uniqueID }, true)) ∧
    (∀ (w : CScriptVar) (hasRecursion0 : Bool),
      getParsableStringRecursionsCheck 0 w hasRecursion0 =
        (none, { w with temporaryID := 0 }, hasRecursion0)) := by
  have hne2 : ¬ uniqueID = v.temporaryID := fun e => hne e.symm
  have first : getParsableStringRecursionsCheck uniqueID v hasRecursion =
      (none, { v with temporaryID := uniqueID }, hasRecursion) := by
    simp [getParsableStringRecursionsCheck, hne2]
  refine ⟨first, ?_, ?_⟩
  · intro hasRecursion2
    rw [first]
    simp [getParsableStringRecursionsCheck, h0]
  · intro w hasRecursion0
    simp [getParsableStringRecursionsCheck]

/-- C28 at the stamp 7 and a value whose `temporaryID` is 3. -/
theorem C28_recursion_check_witness :
    (7 : Nat) ≠ 0 ∧
    ({ extensible := true, refs := 1, temporaryID := 3 } : CScriptVar).temporaryID ≠ 7 ∧
    getParsableStringRecursionsCheck 7 { extensible := true, refs := 1, temporaryID := 3 }
        false =
      (none, { extensible := true, refs := 1, temporaryID := 7 }, false) ∧
    getParsableStringRecursionsCheck 7 { extensible := true, refs := 1, temporaryID := 7 }
        false =
      (some "recursion", { extensible := true, refs := 1, temporaryID := 7 }, true) :=
  ⟨by decide, by decide,
   (C28_recursion_check 7 { extensible := true, refs := 1, temporaryID := 3 } false
     (by decide) (by decide)).1,
   by decide⟩

/-- The destructor loop is the loop body iterated `count` times. -/
theorem destructorLoop_eq_undoSteps (count : Nat) :
    ∀ scopes : List CScriptVarScope,
      CScopeControl.destructorLoop count scopes = CScopeControl.undoSteps count scopes := by
  induction count with
  | zero =>
    intro scopes
    rfl
  | succ n ih =>
    intro scopes
    cases scopes with
    | nil => rfl
    | cons back rest =>
      cases hp : back.getParent with
      | none => simp [CScopeControl.destructorLoop, CScopeControl.undoSteps,
          CScopeControl.undoStep, hp, ih]
      | some parent => simp [CScopeControl.destructorLoop, CScopeControl.undoSteps,
          CScopeControl.undoStep, hp, ih]

/-- A scope with a parent has a chain one longer than its parent; one without has chain 1. -/
theorem chainLength_getParent (S : CScriptVarScope) :
    (∀ parent, S.getParent = some parent → S.chainLength = parent.chainLength + 1) ∧
    (S.getParent = none → S.chainLength = 1) := by
  cases S <;> simp [CScriptVarScope.getParent, CScriptVarScope.chainLength]

/-- Every scope has a chain of at least one scope. -/
theorem chainLength_pos (S : CScriptVarScope) : 1 ≤ S.chainLength := by
  cases S <;> simp [CScriptVarScope.chainLength]

/-- The destructor loop does not run into an empty stack as long as the number of iterations is
at most the depth of the stack; each iteration takes one off the depth. -/
theorem destructorLoop_total (count : Nat) :
    ∀ scopes : List CScriptVarScope, count ≤ stackDepth scopes →
      ∃ result, CScopeControl.destructorLoop count scopes = some result ∧
        stackDepth result + count = stackDepth scopes := by
  induction count with
  | zero =>
    intro scopes _
    exact ⟨scopes, rfl, rfl⟩
  | succ n ih =>
    intro scopes hle
    cases scopes with
    | nil => simp [stackDepth] at hle
    | cons back rest =>
      obtain ⟨hsome, hnone⟩ := chainLength_getParent back
      cases hp : back.getParent with
      | none =>
        have h1 := hnone hp
        simp only [stackDepth, h1] at hle
        obtain ⟨result, e1, e2⟩ := ih rest (by omega)
        refine ⟨result, ?_, ?_⟩
        · simp [CScopeControl.destructorLoop, hp, e1]
        · simp only [stackDepth, h1]
          omega
      | some parent =>
        have h1 := hsome parent hp
        simp only [stackDepth, h1] at hle
        obtain ⟨result, e1, e2⟩ := ih (parent :: rest) (by simp only [stackDepth]; omega)
        refine ⟨result, ?_, ?_⟩
        · simp [CScopeControl.destructorLoop, hp, e1]
        · simp only [stackDepth, h1] at e2 ⊢
          omega

/-- On a non-empty stack every sequence of calls runs to the end; it adds the number of calls
to `count` and at least as much to the depth of the stack. -/
theorem calls_count_and_depth (cs : List ScopeCall) :
    ∀ sc : CScopeControl, sc.context.scopes ≠ [] →
      ∃ sc1, sc.calls cs = some sc1 ∧ sc1.count = sc.count + cs.length ∧
        stackDepth sc.context.scopes + cs.length ≤ stackDepth sc1.context.scopes := by
  induction cs with
  | nil =>
    intro sc _
    exact ⟨sc, rfl, rfl, Nat.le_refl _⟩
  | cons c cs ih =>
    intro sc hne
    cases c with
    | addFncScope Scope =>
      obtain ⟨sc1, e1, e2, e3⟩ := ih (sc.addFncScope Scope)
        (by simp [CScopeControl.addFncScope])
      refine ⟨sc1, ?_, ?_, ?_⟩
      · simp [CScopeControl.calls, CScopeControl.call, e1]
      · rw [e2]
        simp only [CScopeControl.addFncScope, List.length_cons]
        omega
      · have hpos := chainLength_pos Scope
        simp only [CScopeControl.addFncScope, stackDepth] at e3
        simp only [List.length_cons]
        omega
    | addLetScope addr =>
      cases hs : sc.context.scopes with
      | nil => exact absurd hs hne
      | cons back rest =>
        obtain ⟨sc1, e1, e2, e3⟩ := ih
          { context := { sc.context with scopes := .ScopeLet addr back :: rest },
            count := sc.count + 1 }
          (by simp)
        refine ⟨sc1, ?_, ?_, ?_⟩
        · simp [CScopeControl.calls, CScopeControl.call, CScopeControl.addLetScope, hs, e1]
        · rw [e2]
          simp only [List.length_cons]
          omega
        · simp only [stackDepth, CScriptVarScope.chainLength] at e3
          simp only [stackDepth, List.length_cons]
          omega
    | addWithScope addr With =>
      cases hs : sc.context.scopes with
      | nil => exact absurd hs hne
      | cons back rest =>
        obtain ⟨sc1, e1, e2, e3⟩ := ih
          { context := { sc.context with scopes := .ScopeWith addr back With :: rest },
            count := sc.count + 1 }
          (by simp)
        refine ⟨sc1, ?_, ?_, ?_⟩
        · simp [CScopeControl.calls, CScopeControl.call, CScopeControl.addWithScope, hs, e1]
        · rw [e2]
          simp only [List.length_cons]
          omega
        · simp only [stackDepth, CScriptVarScope.chainLength] at e3
          simp only [stackDepth, List.length_cons]
          omega

/-- C29: on a context whose scope stack is not empty (top `back`, below it `rest`),
`addFncScope(S)` makes the stack one deeper with `S` on top of the unchanged earlier entries;
`addLetScope` and `addWithScope` keep the depth and replace only the top, by a new let
respectively with scope whose parent is the former top, `addLetScope` returning that scope; each
of the three adds one to `count`. The destructor runs the loop body `count` times, each
iteration either replacing the top by its parent or popping it, and after any sequence of calls
made through a control constructed on this context it runs to the end. -/
theorem C29_scope_control_effects (Context : CTinyJS) (count : Nat) (back : CScriptVarScope)
    (rest : List CScriptVarScope) (hs : Context.scopes = back :: rest) :
    (∀ S : CScriptVarScope,
      (CScopeControl.addFncScope { context := Context, count := count } S).context.scopes =
        S :: back :: rest ∧
      (CScopeControl.addFncScope { context := Context, count := count } S).context.scopes.length =
        Context.scopes.length + 1 ∧
      (CScopeControl.addFncScope { context := Context, count := count } S).count = count + 1) ∧
    (∀ addr : VarAddr,
      CScopeControl.addLetScope { context := Context, count := count } addr =
        some (.ScopeLet addr back,
          { context := { Context with scopes := .ScopeLet addr back :: rest },
            count := count + 1 }) ∧
      (CScriptVarScope.ScopeLet addr back).getParent = some back ∧
      (CScriptVarScope.ScopeLet addr back :: rest).length = Context.scopes.length) ∧
    (∀ (addr : VarAddr) (With : CScriptVarPtr),
      CScopeControl.addWithScope { context := Context, count := count } addr With =
        some { context := { Context with scopes := .ScopeWith addr back With :: rest },
               count := count + 1 } ∧
      (CScriptVarScope.ScopeWith addr back With).getParent = some back ∧
      (CScriptVarScope.ScopeWith addr back With :: rest).length = Context.scopes.length) ∧
    (CScopeControl.destructor { context := Context, count := count } =
      (CScopeControl.undoSteps count Context.scopes).map
        fun scopes => { Context with scopes := scopes }) ∧
    ((back.getParent = none ∧ CScopeControl.undoStep Context.scopes = some rest) ∨
      (∃ parent, back.getParent = some parent ∧
        CScopeControl.undoStep Context.scopes = some (parent :: rest))) ∧
    (∀ cs : List ScopeCall,
      ∃ sc1 after, (CScopeControl.construct Context).calls cs = some sc1 ∧
        sc1.count = cs.length ∧ sc1.destructor = some after) := by
  refine ⟨?_, ?_, ?_, ?_, ?_, ?_⟩
  · intro S
    simp [CScopeControl.addFncScope, hs]
  · intro addr
    simp [CScopeControl.addLetScope, hs, CScriptVarScope.getParent]
  · intro addr With
    simp [CScopeControl.addWithScope, hs, CScriptVarScope.getParent]
  · simp only [CScopeControl.destructor, destructorLoop_eq_undoSteps]
  · rw [hs]
    cases hp : back.getParent with
    | none => exact Or.inl ⟨rfl, by simp [CScopeControl.undoStep, hp]⟩
    | some parent => exact Or.inr ⟨parent, rfl, by simp [CScopeControl.undoStep, hp]⟩
  · intro cs
    obtain ⟨sc1, e1, e2, e3⟩ := calls_count_and_depth cs (CScopeControl.construct Context)
      (by simp [CScopeControl.construct, hs])
    have hc : sc1.count = cs.length := by
      rw [e2]
      simp [CScopeControl.construct]
    obtain ⟨result, r1, -⟩ := destructorLoop_total sc1.count sc1.context.scopes (by omega)
    exact ⟨sc1, { sc1.context with scopes := result }, e1, hc,
      by simp [CScopeControl.destructor, r1]⟩

/-- C29 on the stack holding a function scope (top) over the root scope. -/
theorem C29_scope_control_effects_witness :
    (CTinyJS.sample [.ScopeFnc 101 (some 100), .Scope 100] 0).scopes =
      [.ScopeFnc 101 (some 100), .Scope 100] ∧
    CScopeControl.addLetScope
        { context := CTinyJS.sample [.ScopeFnc 101 (some 100), .Scope 100] 0, count := 2 } 102 =
      some (.ScopeLet 102 (.ScopeFnc 101 (some 100)),
        { context := { CTinyJS.sample [.ScopeFnc 101 (some 100), .Scope 100] 0 with
                       scopes := [.ScopeLet 102 (.ScopeFnc 101 (some 100)), .Scope 100] },
          count := 3 }) :=
  ⟨rfl,
   ((C29_scope_control_effects (CTinyJS.sample [.ScopeFnc 101 (some 100), .Scope 100] 0) 2
      (.ScopeFnc 101 (some 100)) [.Scope 100] rfl).2.1 102).1⟩

end TinyJS
